import Mathlib

/-!
# WebsiteMapper — verification of the crawl engine against its specification

Shallow embedding of the WebsiteMapper crawl engine (`src/server/routes.ts`,
`src/server/storage.ts`, shared schema) in Lean 4, together with theorems
settling the frozen claims about the crawl loop, the in-memory storage, the
progress statistics and the session lifecycle.

Modelling conventions:
* JavaScript numbers that hold page counts, ids, HTTP status codes, sizes and
  millisecond timestamps are modelled as `Nat` (they are small non-negative
  integers in the source).
* JS `x || null` coercions (which map `0`, `''`, `null`, `undefined` to `null`)
  are modelled by explicit coercion functions on `Option`.
* JS `Map` is modelled as an association list with insertion-order semantics
  (`set` updates in place or appends, `values()` iterates in insertion order);
  JS `Set` is a duplicate-free list keeping first insertions.
* External platform facilities (the network, cheerio's HTML parsing, the
  WHATWG `URL` parser, xml2js) are modelled by an explicit `World` record of
  oracles; the repository's own logic (filtering, hashing pipeline, queue and
  counter management, storage) is translated directly from the source.
-/

namespace WebsiteMapper

/-! ## JS value coercions -/

/-- JS `x || null` on a numeric field: `0`, `null` and `undefined` are falsy. -/
def jsOrNullNat : Option Nat → Option Nat
  | some 0 => none
  | some n => some n
  | none => none

/-- JS `x || null` on a string field: `''`, `null` and `undefined` are falsy. -/
def jsOrNullStr : Option String → Option String
  | some "" => none
  | some s => some s
  | none => none

/-- JS `Set.add`: append unless already present (insertion order preserved). -/
def jsSetInsert (l : List String) (x : String) : List String :=
  if x ∈ l then l else l ++ [x]

/-- `Array.from(new Set(l))`: deduplicate keeping first occurrences. -/
def jsSetOfList (l : List String) : List String :=
  l.foldl jsSetInsert []

/-! ## Data model (shared schema: `crawlSessions`, `crawledPages`) -/

/-- `status` column of `crawl_sessions`:
`'pending' | 'running' | 'completed' | 'stopped' | 'error'`. -/
inductive SessionStatus where
  | pending
  | running
  | completed
  | stopped
  | error
deriving Repr, DecidableEq

/-- A row of `crawl_sessions` (type `CrawlSession`). Timestamps are an
abstract `Nat` clock; `completedAt` is nullable. -/
structure CrawlSession where
  id : Nat
  url : String
  maxPages : Option Nat
  maxDepth : Nat
  status : SessionStatus
  totalPages : Nat
  successfulPages : Nat
  errorPages : Nat
  startedAt : Nat
  completedAt : Option Nat
  error : Option String
  currentUrl : Option String
deriving Repr, DecidableEq

/-- A row of `crawled_pages` (type `CrawledPage`). -/
structure CrawledPage where
  id : Nat
  sessionId : Nat
  url : String
  statusCode : Option Nat
  contentType : Option String
  size : Option Nat
  loadTime : Option Nat
  depth : Nat
  contentHash : Option String
  discoveredAt : Nat
deriving Repr, DecidableEq

/-- `InsertCrawlSession` (zod pick of url/maxPages/maxDepth). -/
structure InsertCrawlSession where
  url : String
  maxPages : Option Nat
  maxDepth : Nat
deriving Repr, DecidableEq

/-- `InsertCrawledPage`: the argument record of `createCrawledPage`. The
controller always passes concrete numbers for statusCode/size/loadTime and a
string for contentType, so those are non-optional here; the storage layer's
falsy coercions are applied on creation. -/
structure InsertCrawledPage where
  sessionId : Nat
  url : String
  statusCode : Nat
  contentType : String
  size : Nat
  loadTime : Nat
  depth : Nat
  contentHash : Option String
deriving Repr, DecidableEq

/-! ## JS `Map` as an association list -/

/-- `Map.get`. -/
def mapGet {α : Type} (m : List (Nat × α)) (k : Nat) : Option α :=
  (m.find? (fun p => p.1 == k)).map (·.2)

/-- `Map.set`: replace in place if the key exists, else append. -/
def mapSet {α : Type} (m : List (Nat × α)) (k : Nat) (v : α) : List (Nat × α) :=
  if m.any (fun p => p.1 == k) then
    m.map (fun p => if p.1 == k then (k, v) else p)
  else
    m ++ [(k, v)]

/-- `Map.delete`. -/
def mapDelete {α : Type} (m : List (Nat × α)) (k : Nat) : List (Nat × α) :=
  m.filter (fun p => !(p.1 == k))

theorem mapGet_mapSet {α : Type} (m : List (Nat × α)) (k : Nat) (v : α) :
    mapGet (mapSet m k v) k = some v := by
  unfold mapSet
  split
  · rename_i hany
    induction m with
    | nil => simp at hany
    | cons hd tl ih =>
      by_cases hk : hd.1 = k
      · simp [mapGet, List.find?, hk]
      · have hk' : (hd.1 == k) = false := by simp [hk]
        simp only [List.any_cons, hk', Bool.false_or] at hany
        simpa [mapGet, List.find?, hk'] using ih hany
  · induction m with
    | nil => simp [mapGet, List.find?]
    | cons hd tl ih =>
      rename_i hany
      simp only [List.any_cons, Bool.or_eq_true, not_or] at hany
      have hk' : (hd.1 == k) = false := by
        simpa using hany.1
      have := ih (by simpa using hany.2)
      simpa [mapGet, List.find?, hk'] using this

theorem find_map_replace {α : Type} (m : List (Nat × α)) (k k' : Nat) (v : α)
    (hne : k' ≠ k) :
    List.find? (fun p => p.1 == k')
        (m.map (fun p => if p.1 == k then (k, v) else p)) =
      List.find? (fun p => p.1 == k') m := by
  induction m with
  | nil => rfl
  | cons hd tl ih =>
    rw [List.map_cons]
    by_cases hk : hd.1 = k
    · have h1 : (if (hd.1 == k) = true then ((k, v) : Nat × α) else hd) = (k, v) := by
        simp [hk]
      rw [h1, List.find?_cons_of_neg _ (by simp [Ne.symm hne]),
        List.find?_cons_of_neg _ (by simp [hk, Ne.symm hne])]
      exact ih
    · have h1 : (if (hd.1 == k) = true then ((k, v) : Nat × α) else hd) = hd := by
        simp [hk]
      rw [h1]
      by_cases hk2 : hd.1 = k'
      · rw [List.find?_cons_of_pos _ (by simp [hk2]),
          List.find?_cons_of_pos _ (by simp [hk2])]
      · rw [List.find?_cons_of_neg _ (by simp [hk2]),
          List.find?_cons_of_neg _ (by simp [hk2])]
        exact ih

theorem find_append_single {α : Type} (m : List (Nat × α)) (k k' : Nat) (v : α)
    (hne : k' ≠ k) :
    List.find? (fun p => p.1 == k') (m ++ [(k, v)]) =
      List.find? (fun p => p.1 == k') m := by
  induction m with
  | nil =>
    rw [List.nil_append, List.find?_cons_of_neg _ (by simp [Ne.symm hne])]
  | cons hd tl ih =>
    rw [List.cons_append]
    by_cases hk2 : hd.1 = k'
    · rw [List.find?_cons_of_pos _ (by simp [hk2]),
        List.find?_cons_of_pos _ (by simp [hk2])]
    · rw [List.find?_cons_of_neg _ (by simp [hk2]),
        List.find?_cons_of_neg _ (by simp [hk2])]
      exact ih

theorem mapGet_mapSet_ne {α : Type} (m : List (Nat × α)) (k k' : Nat) (v : α)
    (hne : k' ≠ k) : mapGet (mapSet m k v) k' = mapGet m k' := by
  unfold mapSet mapGet
  split
  · rw [find_map_replace m k k' v hne]
  · rw [find_append_single m k k' v hne]

/-! ## `MemStorage` (`src/server/storage.ts`) -/

/-- The in-memory storage backend: three JS `Map`s plus the two id counters. -/
structure MemStorage where
  crawlSessions : List (Nat × CrawlSession)
  crawledPages : List (Nat × CrawledPage)
  pdfLinks : List (Nat × List String)
  currentSessionId : Nat
  currentPageId : Nat
deriving Repr, DecidableEq

/-- The `MemStorage` constructor. -/
def MemStorage.empty : MemStorage :=
  { crawlSessions := [], crawledPages := [], pdfLinks := []
    currentSessionId := 1, currentPageId := 1 }

/-- `MemStorage.createCrawlSession`. `now` models `new Date()`. -/
def MemStorage.createCrawlSession (m : MemStorage) (insertSession : InsertCrawlSession)
    (now : Nat) : CrawlSession × MemStorage :=
  let id := m.currentSessionId
  let session : CrawlSession :=
    { id := id
      url := insertSession.url
      maxPages := jsOrNullNat insertSession.maxPages
      maxDepth := insertSession.maxDepth
      status := .pending
      totalPages := 0
      successfulPages := 0
      errorPages := 0
      startedAt := now
      completedAt := none
      error := none
      currentUrl := none }
  (session,
   { m with crawlSessions := mapSet m.crawlSessions id session
            currentSessionId := id + 1 })

/-- `MemStorage.getCrawlSession`. -/
def MemStorage.getCrawlSession (m : MemStorage) (id : Nat) : Option CrawlSession :=
  mapGet m.crawlSessions id

/-- A `Partial<CrawlSession>` update record (only the fields the routes and the
crawl loop ever pass). A `some` marks a field present in the update object. -/
structure SessionUpdates where
  status : Option SessionStatus := none
  totalPages : Option Nat := none
  successfulPages : Option Nat := none
  errorPages : Option Nat := none
  startedAt : Option Nat := none
  completedAt : Option (Option Nat) := none
deriving Repr, DecidableEq

/-- `{ ...session, ...updates }`. -/
def applyUpdates (s : CrawlSession) (u : SessionUpdates) : CrawlSession :=
  { s with
    status := u.status.getD s.status
    totalPages := u.totalPages.getD s.totalPages
    successfulPages := u.successfulPages.getD s.successfulPages
    errorPages := u.errorPages.getD s.errorPages
    startedAt := u.startedAt.getD s.startedAt
    completedAt := u.completedAt.getD s.completedAt }

/-- `MemStorage.updateCrawlSession`. -/
def MemStorage.updateCrawlSession (m : MemStorage) (id : Nat) (u : SessionUpdates) :
    Option CrawlSession × MemStorage :=
  match mapGet m.crawlSessions id with
  | none => (none, m)
  | some session =>
    let updatedSession := applyUpdates session u
    (some updatedSession,
     { m with crawlSessions := mapSet m.crawlSessions id updatedSession })

/-- `MemStorage.createCrawledPage`, including the `|| null` falsy coercions on
statusCode / contentType / size / loadTime and `?? null` on contentHash. -/
def MemStorage.createCrawledPage (m : MemStorage) (insertPage : InsertCrawledPage)
    (now : Nat) : CrawledPage × MemStorage :=
  let id := m.currentPageId
  let page : CrawledPage :=
    { id := id
      url := insertPage.url
      sessionId := insertPage.sessionId
      statusCode := jsOrNullNat (some insertPage.statusCode)
      contentType := jsOrNullStr (some insertPage.contentType)
      size := jsOrNullNat (some insertPage.size)
      loadTime := jsOrNullNat (some insertPage.loadTime)
      depth := insertPage.depth
      contentHash := insertPage.contentHash
      discoveredAt := now }
  (page,
   { m with crawledPages := mapSet m.crawledPages id page
            currentPageId := id + 1 })

/-- `MemStorage.getCrawledPagesBySession`: `Map.values()` filtered by session. -/
def MemStorage.getCrawledPagesBySession (m : MemStorage) (sessionId : Nat) :
    List CrawledPage :=
  (m.crawledPages.map (·.2)).filter (fun page => page.sessionId == sessionId)

/-- JS truthiness of `page.contentHash` (`null` and `''` are falsy). -/
def contentHashTruthy (page : CrawledPage) : Bool :=
  match page.contentHash with
  | none => false
  | some h => !(h == "")

/-- `MemStorage.getUniqueContentHashes`: pages of the session with a truthy
hash, mapped to their hashes, deduplicated through a JS `Set`. -/
def MemStorage.getUniqueContentHashes (m : MemStorage) (sessionId : Nat) :
    List String :=
  let pages := (m.crawledPages.map (·.2)).filter
    (fun page => page.sessionId == sessionId && contentHashTruthy page)
  jsSetOfList (pages.filterMap (·.contentHash))

/-- `MemStorage.addPdfLink`. -/
def MemStorage.addPdfLink (m : MemStorage) (sessionId : Nat) (url : String) :
    MemStorage :=
  let cur := (mapGet m.pdfLinks sessionId).getD []
  { m with pdfLinks := mapSet m.pdfLinks sessionId (jsSetInsert cur url) }

/-- `MemStorage.getPdfLinkCount`. -/
def MemStorage.getPdfLinkCount (m : MemStorage) (sessionId : Nat) : Nat :=
  ((mapGet m.pdfLinks sessionId).getD []).length

/-- `MemStorage.getPdfLinks`. -/
def MemStorage.getPdfLinks (m : MemStorage) (sessionId : Nat) : List String :=
  (mapGet m.pdfLinks sessionId).getD []

/-! ## Byte-level primitives: UTF-8, base64, SHA-256

Models of the Node.js facilities used by the crawl loop:
`createHash('sha256').update(content, 'utf8').digest('hex')` and
`Buffer.prototype.toString('base64')`. SHA-256 follows FIPS 180-4 directly,
over `Nat` with explicit `% 2^32`. -/

def M32 : Nat := 4294967296

def rotr32 (n x : Nat) : Nat := ((x >>> n) ||| (x <<< (32 - n))) % M32

def not32 (x : Nat) : Nat := x ^^^ 4294967295

def bigSigma0 (x : Nat) : Nat := rotr32 2 x ^^^ rotr32 13 x ^^^ rotr32 22 x

def bigSigma1 (x : Nat) : Nat := rotr32 6 x ^^^ rotr32 11 x ^^^ rotr32 25 x

def smallSigma0 (x : Nat) : Nat := rotr32 7 x ^^^ rotr32 18 x ^^^ (x >>> 3)

def smallSigma1 (x : Nat) : Nat := rotr32 17 x ^^^ rotr32 19 x ^^^ (x >>> 10)

def ch32 (x y z : Nat) : Nat := (x &&& y) ^^^ (not32 x &&& z)

def maj32 (x y z : Nat) : Nat := (x &&& y) ^^^ (x &&& z) ^^^ (y &&& z)

/-- The 64 SHA-256 round constants. -/
def sha256K : List Nat :=
  [1116352408, 1899447441, 3049323471, 3921009573, 961987163, 1508970993, 2453635748, 2870763221,
   3624381080, 310598401, 607225278, 1426881987, 1925078388, 2162078206, 2614888103, 3248222580,
   3835390401, 4022224774, 264347078, 604807628, 770255983, 1249150122, 1555081692, 1996064986,
   2554220882, 2821834349, 2952996808, 3210313671, 3336571891, 3584528711, 113926993, 338241895,
   666307205, 773529912, 1294757372, 1396182291, 1695183700, 1986661051, 2177026350, 2456956037,
   2730485921, 2820302411, 3259730800, 3345764771, 3516065817, 3600352804, 4094571909, 275423344,
   430227734, 506948616, 659060556, 883997877, 958139571, 1322822218, 1537002063, 1747873779,
   1955562222, 2024104815, 2227730452, 2361852424, 2428436474, 2756734187, 3204031479, 3329325298]

/-- The SHA-256 initial hash value. -/
def sha256H0 : List Nat :=
  [1779033703, 3144134277, 1013904242, 2773480762, 1359893119, 2600822924, 528734635, 1541459225]

/-- FIPS 180-4 padding: `0x80`, zeros to 56 mod 64, 8-byte big-endian bit length. -/
def sha256Pad (msg : List Nat) : List Nat :=
  let L := msg.length
  let zeros := (64 + 56 - ((L + 1) % 64)) % 64
  let lenBits := 8 * L
  msg ++ [0x80] ++ List.replicate zeros 0 ++
    ((List.range 8).map (fun i => (lenBits >>> (8 * (7 - i))) &&& 255))

/-- Big-endian bytes to 32-bit words. -/
def bytesToWords : List Nat → List Nat
  | b0 :: b1 :: b2 :: b3 :: rest =>
    (b0 * 16777216 + b1 * 65536 + b2 * 256 + b3) :: bytesToWords rest
  | _ => []

/-- Extend the 16-word block to the 64-word message schedule (`n` extra words). -/
def sha256ExtendAux (w : List Nat) : Nat → List Nat
  | 0 => w
  | n + 1 =>
    let w2 := sha256ExtendAux w n
    let i := w2.length
    w2 ++ [(smallSigma1 (w2.getD (i - 2) 0) + w2.getD (i - 7) 0 +
            smallSigma0 (w2.getD (i - 15) 0) + w2.getD (i - 16) 0) % M32]

/-- One SHA-256 round on the working variables `[a,b,c,d,e,f,g,h]`. -/
def sha256Round (st : List Nat) (kw : Nat × Nat) : List Nat :=
  match st with
  | [a, b, c, d, e, f, g, h] =>
    let t1 := (h + bigSigma1 e + ch32 e f g + kw.1 + kw.2) % M32
    let t2 := (bigSigma0 a + maj32 a b c) % M32
    [(t1 + t2) % M32, a, b, c, (d + t1) % M32, e, f, g]
  | other => other

/-- Compress one 64-byte block into the running hash. -/
def sha256Compress (hash : List Nat) (block : List Nat) : List Nat :=
  let w := sha256ExtendAux (bytesToWords block) 48
  let st := (sha256K.zip w).foldl sha256Round hash
  (hash.zip st).map (fun p => (p.1 + p.2) % M32)

/-- Split into 64-byte chunks (fuel-recursive so the kernel can evaluate it). -/
def chunks64Fuel : Nat → List Nat → List (List Nat)
  | 0, _ => []
  | _, [] => []
  | fuel + 1, l => l.take 64 :: chunks64Fuel fuel (l.drop 64)

def chunks64 (l : List Nat) : List (List Nat) := chunks64Fuel l.length l

/-- SHA-256 digest of a byte sequence, as bytes. -/
def sha256Bytes (msg : List Nat) : List Nat :=
  let final := (chunks64 (sha256Pad msg)).foldl sha256Compress sha256H0
  final.foldr (fun x acc =>
    ((x >>> 24) &&& 255) :: ((x >>> 16) &&& 255) :: ((x >>> 8) &&& 255) :: (x &&& 255) :: acc) []

def hexDigits : List Char := "0123456789abcdef".toList

/-- Lowercase hex encoding of a byte sequence (`digest('hex')`). -/
def bytesToHex (bs : List Nat) : String :=
  String.mk ((bs.map (fun b => [hexDigits.getD (b / 16) '0', hexDigits.getD (b % 16) '0'])).flatten)

/-- SHA-256 digest of a byte sequence, hex-encoded. -/
def sha256Hex (msg : List Nat) : String := bytesToHex (sha256Bytes msg)

/-- UTF-8 encoding of one character. -/
def utf8EncodeChar (c : Char) : List Nat :=
  let n := c.toNat
  if n < 0x80 then [n]
  else if n < 0x800 then [0xC0 ||| (n >>> 6), 0x80 ||| (n &&& 0x3F)]
  else if n < 0x10000 then
    [0xE0 ||| (n >>> 12), 0x80 ||| ((n >>> 6) &&& 0x3F), 0x80 ||| (n &&& 0x3F)]
  else
    [0xF0 ||| (n >>> 18), 0x80 ||| ((n >>> 12) &&& 0x3F),
     0x80 ||| ((n >>> 6) &&& 0x3F), 0x80 ||| (n &&& 0x3F)]

/-- UTF-8 bytes of a string (`update(content, 'utf8')` hashes these). -/
def utf8Bytes (s : String) : List Nat := (s.toList.map utf8EncodeChar).flatten

/-- `createHash('sha256').update(content, 'utf8').digest('hex')`. -/
def sha256HexOfString (content : String) : String := sha256Hex (utf8Bytes content)

def base64Alphabet : List Char :=
  "ABCDEFGHIJKLMNOPQRSTUVWXYZabcdefghijklmnopqrstuvwxyz0123456789+/".toList

def b64c (n : Nat) : Char := base64Alphabet.getD n 'A'

/-- Standard base64 with `=` padding, three input bytes at a time. -/
def base64Groups : List Nat → List Char
  | b0 :: b1 :: b2 :: rest =>
    let n := b0 * 65536 + b1 * 256 + b2
    b64c (n >>> 18) :: b64c ((n >>> 12) &&& 63) :: b64c ((n >>> 6) &&& 63) ::
      b64c (n &&& 63) :: base64Groups rest
  | [b0, b1] =>
    let n := b0 * 65536 + b1 * 256
    [b64c (n >>> 18), b64c ((n >>> 12) &&& 63), b64c ((n >>> 6) &&& 63), '=']
  | [b0] =>
    let n := b0 * 65536
    [b64c (n >>> 18), b64c ((n >>> 12) &&& 63), '=', '=']
  | [] => []

/-- `Buffer.prototype.toString('base64')`. -/
def base64Encode (bs : List Nat) : String := String.mk (base64Groups bs)

/-! ## The outside world: network, HTML parsing, URL parsing

The crawl loop calls into axios, cheerio, xml2js and the WHATWG `URL`
parser. Those are platform facilities, not code of this repository; they are
modelled as a record of oracles. Everything the repository itself computes
(filtering rules, hashing pipeline, queue/counter management) is translated
from the source below. -/

/-- The value of `response.data`: a string, a Node `Buffer` (a byte sequence),
or some other truthy JSON-parsed value represented by its `JSON.stringify`
image. `Option BodyData` adds the absent/falsy-object case. -/
inductive BodyData where
  | str (s : String)
  | buf (bytes : List Nat)
  | other (json : String)
deriving Repr, DecidableEq

/-- JS truthiness of `response.data` (empty string falsy, Buffers and other
objects truthy, absent falsy). -/
def dataTruthy : Option BodyData → Bool
  | none => false
  | some (.str s) => !(s == "")
  | some (.buf _) => true
  | some (.other _) => true

/-- Outcome of `axios.get(url, {timeout, maxRedirects, maxContentLength,
maxBodyLength, validateStatus: () => true})`: either a thrown transport
failure, or a response with status, `content-type` header (absent = `none`),
body and measured elapsed time. -/
inductive FetchOutcome where
  | failure
  | response (status : Nat) (contentType : Option String) (data : Option BodyData)
      (loadTime : Nat)
deriving Repr, DecidableEq

/-- A WHATWG `URL` object, restricted to the properties the source reads. -/
structure JsUrl where
  origin : String
  hostname : String
  pathname : String
  search : String
  hash : String
deriving Repr, DecidableEq

/-- `url.toString()` after the source has assigned `url.hash = ''`: the WHATWG
serialization without a fragment, `origin ++ pathname ++ search`. -/
def JsUrl.serializeNoHash (u : JsUrl) : String := u.origin ++ u.pathname ++ u.search

/-- Oracles for the external libraries. `fetch` is the network; `sitemapLocs`
is the result of fetching and xml2js-parsing `{origin}/sitemap.xml` (`none`
when that fetch/parse throws, `some locs` the `<loc>` texts in order);
`hrefs` is cheerio's `$('a[href]')` href attributes in document order;
`htmlNormText` is `$('body').text().replace(/\s+/g, ' ').trim()` after
removing script/style/noscript (`none` when the cheerio pipeline throws);
`parse` is `new URL(s)` and `resolve` is `new URL(href, base)` (`none` when
the constructor throws); `jsonLength` is
`Buffer.byteLength(JSON.stringify(data))` for non-string bodies. -/
structure World where
  fetch : String → FetchOutcome
  sitemapLocs : String → Option (List String)
  hrefs : Option BodyData → List String
  htmlNormText : Option BodyData → Option String
  parse : String → Option JsUrl
  resolve : String → String → Option JsUrl
  jsonLength : BodyData → Nat

/-- `getSitemapUrls`: any failure is swallowed and yields the empty list. -/
def getSitemapUrls (w : World) (baseUrl : String) : List String :=
  (w.sitemapLocs baseUrl).getD []

/-! ## `extractLinksAndPdfs` (`src/server/routes.ts`) -/

/-- `hostname.replace(/^www\./, '')`: drop a leading literal `www.` prefix.
Written over the character list so that it evaluates inside the kernel. -/
def stripWww (h : String) : String :=
  if "www.".data.isPrefixOf h.data then { data := h.data.drop 4 } else h

/-- The fixed list of skipped non-page extensions. -/
def skipExtensions : List String :=
  [".jpg", ".jpeg", ".png", ".gif", ".svg", ".doc", ".docx", ".zip", ".mp3", ".mp4", ".avi"]

/-- JS `String.prototype.includes`. -/
def jsIncludes (s sub : String) : Bool :=
  (List.range (s.length + 1)).any (fun i => sub.toList.isPrefixOf (s.toList.drop i))

/-- `response.headers['content-type']?.includes(sub)` (`undefined` is falsy). -/
def ctypeIncludes (ctype : Option String) (sub : String) : Bool :=
  match ctype with
  | none => false
  | some c => jsIncludes c sub

/-- The body of one `$('a[href]').each` iteration in `extractLinksAndPdfs`,
folded over `(linkSet, pdfLinkSet)`. -/
def processHref (w : World) (base : JsUrl) (baseUrl : String)
    (acc : List String × List String) (href : String) : List String × List String :=
  if href.trim == "" then acc
  else if href.startsWith "javascript:" || href.startsWith "mailto:" ||
      href.startsWith "tel:" || href.startsWith "ftp:" then acc
  else
    match w.resolve href.trim baseUrl with
    | none => acc
    | some url =>
      let baseHost := stripWww base.hostname
      let urlHost := stripWww url.hostname
      if !(urlHost == baseHost) then acc
      else
        let urlWithoutHash := url.origin ++ url.pathname ++ url.search
        let baseWithoutHash := base.origin ++ base.pathname ++ base.search
        if urlWithoutHash == baseWithoutHash && !(url.hash == "") then acc
        else if !(url.hash == "") &&
            (url.pathname == "" || url.pathname == "/" ||
             url.pathname == base.pathname) then acc
        else
          let pathname := url.pathname.toLower
          if pathname.endsWith ".pdf" then
            (acc.1, jsSetInsert acc.2 url.serializeNoHash)
          else if skipExtensions.any (fun ext => pathname.endsWith ext) then acc
          else
            (jsSetInsert acc.1 url.serializeNoHash, acc.2)

/-- `extractLinksAndPdfs(html, baseUrl)`. The source constructs
`base = new URL(baseUrl)` up front; the loop only ever calls this with the
validated seed URL, for which parsing succeeds. -/
def extractLinksAndPdfs (w : World) (html : Option BodyData) (baseUrl : String) :
    List String × List String :=
  match w.parse baseUrl with
  | none => ([], [])
  | some base => (w.hrefs html).foldl (processHref w base baseUrl) ([], [])

/-! ## Content hashing inside the crawl loop -/

/-- The `contentHash` computation of `startCrawling` (routes.ts lines
219-250): only truthy bodies of 2xx responses are hashed; HTML bodies hash
the normalized visible text, other bodies hash the string form of the body
(`content`), where a string body is used as-is, a `Buffer` body is re-encoded
as base64 text, and any other body is `JSON.stringify`ed; an empty `content`
leaves the hash `null`, as does a cheerio exception. -/
def responseContentHash (w : World) (status : Nat) (ctype : Option String)
    (data : Option BodyData) : Option String :=
  if dataTruthy data && decide (200 ≤ status) && decide (status < 300) then
    if ctypeIncludes ctype "text/html" then
      match w.htmlNormText data with
      | none => none
      | some normalizedContent =>
        if normalizedContent == "" then none
        else some (sha256HexOfString normalizedContent)
    else
      let content : String :=
        match data with
        | some (.str s) => s
        | some (.buf b) => base64Encode b
        | some (.other j) => j
        | none => ""
      if content == "" then none else some (sha256HexOfString content)
  else none

/-! ## Session registry and system state -/

/-- One entry of the global `activeCrawls` map. -/
structure ActiveCrawl where
  shouldStop : Bool
  currentUrl : String
deriving Repr, DecidableEq

/-- The process state the routes and the crawl task share: the storage
backend and the `activeCrawls` registry. -/
structure SysState where
  storage : MemStorage
  activeCrawls : List (Nat × ActiveCrawl)
deriving Repr, DecidableEq

/-- POST /api/crawl/:sessionId/stop — set the cancellation flag when an
active entry exists, then unconditionally mark the session stopped. -/
def stopRoute (sys : SysState) (sessionId : Nat) (now : Nat) : SysState :=
  let active :=
    match mapGet sys.activeCrawls sessionId with
    | none => sys.activeCrawls
    | some crawlState =>
      mapSet sys.activeCrawls sessionId { crawlState with shouldStop := true }
  let storage := (sys.storage.updateCrawlSession sessionId
    { status := some .stopped, completedAt := some (some now) }).2
  { storage := storage, activeCrawls := active }

/-! ## The crawl loop (`startCrawling`, routes.ts lines 153-349) -/

/-- The local mutable state of `startCrawling` together with the shared
system state. -/
structure LoopState where
  sys : SysState
  visited : List String
  queued : List String
  queue : List (String × Nat)
  totalPages : Nat
  successfulPages : Nat
  errorPages : Nat
deriving Repr, DecidableEq

/-- `await storage.updateCrawlSession(sessionId, {totalPages, successfulPages,
errorPages})` — commit the three counters. -/
def commitCounters (sessionId : Nat) (st : LoopState) : LoopState :=
  { st with sys := { st.sys with storage :=
      (st.sys.storage.updateCrawlSession sessionId
        { totalPages := some st.totalPages
          successfulPages := some st.successfulPages
          errorPages := some st.errorPages }).2 } }

/-- `if (crawlState) crawlState.currentUrl = current.url`. -/
def updateActiveCurrentUrl (sessionId : Nat) (url : String) (sys : SysState) : SysState :=
  { sys with activeCrawls :=
    (match mapGet sys.activeCrawls sessionId with
     | none => sys.activeCrawls
     | some crawlState =>
       mapSet sys.activeCrawls sessionId { crawlState with currentUrl := url }) }

/-- The `links.forEach` enqueueing loop: each link not yet visited or queued,
while the remaining page budget allows, is pushed at depth `depth`. -/
def enqueueLinks (maxPages depth : Nat) (links : List String) (st : LoopState) :
    LoopState :=
  links.foldl (fun st link =>
    if !(st.visited.contains link) && !(st.queued.contains link) &&
        decide (st.queue.length + st.totalPages < maxPages) then
      { st with queue := st.queue ++ [(link, depth)]
                queued := st.queued ++ [link] }
    else st) st

/-- `for (const pdfLink of pdfLinks) await storage.addPdfLink(...)`. -/
def addPdfLinks (sessionId : Nat) (pdfs : List String) (m : MemStorage) : MemStorage :=
  pdfs.foldl (fun m pdfLink => m.addPdfLink sessionId pdfLink) m

/-- `response.headers['content-type']?.split(';')[0] || ''` — the contentType
field passed to `createCrawledPage`. -/
def contentTypeField (ctype : Option String) : String :=
  match ctype with
  | none => ""
  | some c => c.takeWhile (fun ch => !(ch == ';'))

/-- The size expression of the page record: 0 for falsy bodies, the string
length for string bodies, `Buffer.byteLength(JSON.stringify(data))` (the
`jsonLength` oracle) otherwise. -/
def sizeField (w : World) (data : Option BodyData) : Nat :=
  if dataTruthy data then
    match data with
    | some (.str s) => s.length
    | some d => w.jsonLength d
    | none => 0
  else 0

/-- One trip through the while-loop body after the stop-flag check: dequeue,
skip if visited or too deep, else fetch, record a page, update counters and
possibly enqueue extracted links. -/
def crawlStep (w : World) (sessionId : Nat) (startUrl : String)
    (maxPages maxDepth now : Nat) (st : LoopState) : LoopState :=
  match st.queue with
  | [] => st
  | current :: rest =>
    let st := { st with queue := rest }
    if st.visited.contains current.1 || decide (maxDepth < current.2) then st
    else
      let st := { st with visited := st.visited ++ [current.1] }
      let st := { st with sys := updateActiveCurrentUrl sessionId current.1 st.sys }
      match w.fetch current.1 with
      | .failure =>
        let st := { st with errorPages := st.errorPages + 1
                            totalPages := st.totalPages + 1 }
        let st := { st with sys := { st.sys with storage :=
          (st.sys.storage.createCrawledPage
            { sessionId := sessionId, url := current.1, statusCode := 0
              contentType := "", size := 0, loadTime := 0
              depth := current.2, contentHash := none } now).2 } }
        commitCounters sessionId st
      | .response status ctype data loadTime =>
        let contentHash := responseContentHash w status ctype data
        let st := { st with sys := { st.sys with storage :=
          (st.sys.storage.createCrawledPage
            { sessionId := sessionId, url := current.1, statusCode := status
              contentType := contentTypeField ctype, size := sizeField w data
              loadTime := loadTime, depth := current.2
              contentHash := contentHash } now).2 } }
        let st := { st with totalPages := st.totalPages + 1 }
        let st :=
          if decide (200 ≤ status) && decide (status < 300) then
            let st := { st with successfulPages := st.successfulPages + 1 }
            if decide (current.2 < maxDepth) && ctypeIncludes ctype "text/html" then
              let extracted := extractLinksAndPdfs w data startUrl
              let st := { st with sys := { st.sys with storage :=
                (addPdfLinks sessionId extracted.2 st.sys.storage) } }
              enqueueLinks maxPages (current.2 + 1) extracted.1 st
            else st
          else { st with errorPages := st.errorPages + 1 }
        commitCounters sessionId st

/-- The `sitemapUrls.forEach` seeding loop: each sitemap URL not yet visited
or queued is pushed at depth 0 while the queue is shorter than `maxPages`. -/
def seedSitemapUrls (maxPages : Nat) (urls : List String) (st : LoopState) :
    LoopState :=
  urls.foldl (fun st url =>
    if !(st.visited.contains url) && !(st.queued.contains url) &&
        decide (st.queue.length < maxPages) then
      { st with queue := st.queue ++ [(url, 0)], queued := st.queued ++ [url] }
    else st) st

/-- The while loop. `stops i` says whether a concurrent StopCrawl request is
served at the top of iteration `i` (cancellation is only ever observed there:
the flag is polled once per iteration). Returns the final state and whether
the loop actually exited (`false` = fuel ran out mid-crawl: the state is a
snapshot of a still-running crawl). -/
def crawlLoop (w : World) (stops : Nat → Bool) (sessionId : Nat)
    (startUrl : String) (maxPages maxDepth now : Nat) :
    Nat → Nat → LoopState → LoopState × Bool
  | 0, _, st => (st, false)
  | fuel + 1, i, st =>
    let st := if stops i then { st with sys := stopRoute st.sys sessionId now } else st
    if st.queue.isEmpty || !(decide (st.totalPages < maxPages)) then (st, true)
    else if ((mapGet st.sys.activeCrawls sessionId).map (·.shouldStop)).getD false then
      (st, true)
    else
      crawlLoop w stops sessionId startUrl maxPages maxDepth now fuel (i + 1)
        (crawlStep w sessionId startUrl maxPages maxDepth now st)

/-- `startCrawling(sessionId, startUrl, maxPages, maxDepth)`: mark the session
running, register the active-crawl entry, seed the queue with the start URL
and the sitemap URLs, run the loop, then (if the loop exited) write the final
status and counters and delete the active-crawl entry. -/
def startCrawling (w : World) (stops : Nat → Bool) (fuel : Nat) (sys : SysState)
    (sessionId : Nat) (startUrl : String) (maxPages maxDepth now : Nat) :
    SysState × Bool :=
  let upd := sys.storage.updateCrawlSession sessionId
      { status := some .running, startedAt := some now }
  match upd.1 with
  | none => ({ sys with storage := upd.2 }, true)
  | some _ =>
    let sys2 : SysState :=
      { storage := upd.2
        activeCrawls := mapSet sys.activeCrawls sessionId
          { shouldStop := false, currentUrl := startUrl } }
    let st0 : LoopState :=
      { sys := sys2, visited := [], queued := [startUrl]
        queue := [(startUrl, 0)]
        totalPages := 0, successfulPages := 0, errorPages := 0 }
    let st1 := seedSitemapUrls maxPages (getSitemapUrls w startUrl) st0
    let res := crawlLoop w stops sessionId startUrl maxPages maxDepth now fuel 0 st1
    if res.2 then
      let stF := res.1
      let finalStatus :=
        if ((mapGet stF.sys.activeCrawls sessionId).map (·.shouldStop)).getD false then
          SessionStatus.stopped
        else SessionStatus.completed
      let storageF := (stF.sys.storage.updateCrawlSession sessionId
        { status := some finalStatus, completedAt := some (some now)
          totalPages := some stF.totalPages
          successfulPages := some stF.successfulPages
          errorPages := some stF.errorPages }).2
      ({ storage := storageF, activeCrawls := mapDelete stF.sys.activeCrawls sessionId },
       true)
    else (res.1.sys, false)

/-! ## The start route and the progress statistics -/

/-- A raw request body for POST /api/crawl/start (fields may be absent). -/
structure StartBody where
  url : Option String
  maxPages : Option Nat
  maxDepth : Option Nat
deriving Repr, DecidableEq

/-- `startCrawlSchema.parse(req.body)`: `url: z.string().url()`,
`maxPages: z.number().min(1).max(10000)`, `maxDepth: z.number().min(1).max(20)`.
All three fields are required; a missing field fails the parse. `isUrl` is
zod's URL well-formedness test. -/
def startCrawlSchemaParse (isUrl : String → Bool) (body : StartBody) :
    Option (String × Nat × Nat) :=
  match body.url, body.maxPages, body.maxDepth with
  | some url, some maxPages, some maxDepth =>
    if isUrl url && decide (1 ≤ maxPages) && decide (maxPages ≤ 10000) &&
        decide (1 ≤ maxDepth) && decide (maxDepth ≤ 20) then
      some (url, maxPages, maxDepth)
    else none
  | _, _, _ => none

inductive StartResponse where
  | ok (sessionId : Nat)
  | badRequest
deriving Repr, DecidableEq

/-- POST /api/crawl/start: validate and create the session, answering with its
id (400 on a parse failure, with no session created). The background
`startCrawling` task is modelled separately: the response is sent before the
crawl runs. -/
def startRoute (isUrl : String → Bool) (body : StartBody) (m : MemStorage)
    (now : Nat) : StartResponse × MemStorage :=
  match startCrawlSchemaParse isUrl body with
  | none => (.badRequest, m)
  | some parsed =>
    let r := m.createCrawlSession
      { url := parsed.1, maxPages := some parsed.2.1, maxDepth := parsed.2.2 } now
    (.ok r.1.id, r.2)

/-- `p.statusCode && p.statusCode >= 200 && p.statusCode < 300`. -/
def jsStatusSuccessful (p : CrawledPage) : Bool :=
  match p.statusCode with
  | none => false
  | some c => !(c == 0) && decide (200 ≤ c) && decide (c < 300)

/-- `p.statusCode && p.statusCode >= 400`. -/
def jsStatusError (p : CrawledPage) : Bool :=
  match p.statusCode with
  | none => false
  | some c => !(c == 0) && decide (400 ≤ c)

/-- The `stats` object of a GetProgress response (the statusCodes/pageTypes
histograms are not needed by any claim and are omitted). `duplicateUrls` is
an `Int` because the source computes a JS subtraction. -/
structure ProgressStats where
  totalFound : Nat
  successful : Nat
  errors : Nat
  uniquePages : Nat
  duplicateUrls : Int
  pdfLinks : Nat
deriving Repr, DecidableEq

/-- GET /api/crawl/:sessionId — the stats block (routes.ts lines 42-88). -/
def progressStats (m : MemStorage) (sessionId : Nat) : ProgressStats :=
  let pages := m.getCrawledPagesBySession sessionId
  let successful := (pages.filter jsStatusSuccessful).length
  let errors := (pages.filter jsStatusError).length
  let uniqueHashes := m.getUniqueContentHashes sessionId
  let uniquePages := uniqueHashes.length
  let duplicateUrls : Int := (pages.length : Int) - (uniquePages : Int)
  { totalFound := pages.length
    successful := successful
    errors := errors
    uniquePages := uniquePages
    duplicateUrls := duplicateUrls
    pdfLinks := m.getPdfLinkCount sessionId }

/-! ## C10 — create-then-get round trip and fresh-session defaults -/

/-- C10: immediately after `createCrawlSession` returns a session with id `i`,
`getCrawlSession i` returns that same session, and the returned session has
status `'pending'`, all three counters zero, `completedAt = null` and
`error = null`. -/
theorem C10_createCrawlSession_roundtrip (m : MemStorage)
    (ins : InsertCrawlSession) (now : Nat) :
    ((m.createCrawlSession ins now).2.getCrawlSession
        (m.createCrawlSession ins now).1.id = some (m.createCrawlSession ins now).1) ∧
    (m.createCrawlSession ins now).1.status = SessionStatus.pending ∧
    (m.createCrawlSession ins now).1.totalPages = 0 ∧
    (m.createCrawlSession ins now).1.successfulPages = 0 ∧
    (m.createCrawlSession ins now).1.errorPages = 0 ∧
    (m.createCrawlSession ins now).1.completedAt = none ∧
    (m.createCrawlSession ins now).1.error = none := by
  refine ⟨?_, rfl, rfl, rfl, rfl, rfl, rfl⟩
  simp [MemStorage.createCrawlSession, MemStorage.getCrawlSession, mapGet_mapSet]

/-! ## Lemmas about JS `Set` deduplication -/

theorem mem_jsSetInsert {l : List String} {x y : String} :
    y ∈ jsSetInsert l x ↔ y ∈ l ∨ y = x := by
  unfold jsSetInsert
  split
  · rename_i hx
    constructor
    · exact fun h => Or.inl h
    · rintro (h | rfl)
      · exact h
      · exact hx
  · simp

theorem nodup_jsSetInsert {l : List String} (h : l.Nodup) (x : String) :
    (jsSetInsert l x).Nodup := by
  unfold jsSetInsert
  split
  · exact h
  · rename_i hx
    rw [List.nodup_append]
    refine ⟨h, List.nodup_singleton x, ?_⟩
    intro a ha hb
    rw [List.mem_singleton] at hb
    subst hb
    exact hx ha

theorem mem_foldl_jsSetInsert (l acc : List String) (y : String) :
    y ∈ l.foldl jsSetInsert acc ↔ y ∈ acc ∨ y ∈ l := by
  induction l generalizing acc with
  | nil => simp
  | cons hd tl ih =>
    rw [List.foldl_cons, ih, mem_jsSetInsert]
    constructor
    · rintro ((h | h) | h)
      · exact Or.inl h
      · exact Or.inr (List.mem_cons.mpr (Or.inl h))
      · exact Or.inr (List.mem_cons_of_mem hd h)
    · intro h
      rcases h with h | h
      · exact Or.inl (Or.inl h)
      · rw [List.mem_cons] at h
        rcases h with rfl | h
        · exact Or.inl (Or.inr rfl)
        · exact Or.inr h

theorem nodup_foldl_jsSetInsert (l : List String) :
    ∀ acc : List String, acc.Nodup → (l.foldl jsSetInsert acc).Nodup := by
  induction l with
  | nil => exact fun _ h => h
  | cons hd tl ih => exact fun acc h => ih _ (nodup_jsSetInsert h hd)

theorem length_jsSetOfList_eq_length_dedup (l : List String) :
    (jsSetOfList l).length = l.dedup.length := by
  have h1 : (jsSetOfList l).Nodup := nodup_foldl_jsSetInsert l [] List.nodup_nil
  have h2 : (jsSetOfList l).toFinset = l.toFinset := by
    apply Finset.ext
    intro a
    simp only [List.mem_toFinset]
    rw [jsSetOfList, mem_foldl_jsSetInsert]
    simp
  calc (jsSetOfList l).length
      = (jsSetOfList l).toFinset.card := (List.toFinset_card_of_nodup h1).symm
    _ = l.toFinset.card := by rw [h2]
    _ = l.dedup.length := List.card_toFinset l

/-! ## C7 — duplicate accounting in the progress statistics -/

theorem filterMap_contentHash_of_no_empty (l : List CrawledPage)
    (h : ∀ p ∈ l, p.contentHash ≠ some "") :
    (l.filter contentHashTruthy).filterMap (·.contentHash) =
      l.filterMap (·.contentHash) := by
  induction l with
  | nil => rfl
  | cons hd tl ih =>
    have hhd := h hd (List.mem_cons_self hd tl)
    have htl := fun p hp => h p (List.mem_cons_of_mem hd hp)
    cases hh : hd.contentHash with
    | none =>
      have ht : contentHashTruthy hd = false := by simp [contentHashTruthy, hh]
      simp only [List.filter_cons, ht, Bool.false_eq_true, if_false,
        List.filterMap_cons, hh]
      exact ih htl
    | some s =>
      have hs : s ≠ "" := fun he => hhd (he ▸ hh)
      have ht : contentHashTruthy hd = true := by simp [contentHashTruthy, hh, hs]
      simp only [List.filter_cons, ht, if_true, List.filterMap_cons, hh]
      rw [ih htl]

theorem getUniqueContentHashes_eq (m : MemStorage) (sessionId : Nat) :
    m.getUniqueContentHashes sessionId =
      jsSetOfList (((m.getCrawledPagesBySession sessionId).filter
        contentHashTruthy).filterMap (·.contentHash)) := by
  simp only [MemStorage.getUniqueContentHashes, MemStorage.getCrawledPagesBySession]
  rw [List.filter_filter]
  congr 1
  apply congrArg
  apply List.filter_congr
  intro p _
  exact Bool.and_comm _ _

/-- C7: in every GetProgress response, duplicateUrls = totalFound −
uniquePages, totalFound is the number of the session's CrawledPage records,
and uniquePages is the number of distinct non-null content hashes among them
(null-hash pages count toward totalFound but contribute nothing to
uniquePages). The hypothesis rules out an empty-string hash, which the crawl
loop never stores (hashes are 64-char hex digests or null). -/
theorem C7_duplicate_accounting (m : MemStorage) (sessionId : Nat)
    (h : ∀ p ∈ m.getCrawledPagesBySession sessionId, p.contentHash ≠ some "") :
    (progressStats m sessionId).uniquePages =
      ((m.getCrawledPagesBySession sessionId).filterMap (·.contentHash)).dedup.length ∧
    (progressStats m sessionId).duplicateUrls =
      ((progressStats m sessionId).totalFound : Int) -
        ((progressStats m sessionId).uniquePages : Int) ∧
    (progressStats m sessionId).totalFound =
      (m.getCrawledPagesBySession sessionId).length := by
  refine ⟨?_, rfl, rfl⟩
  show (m.getUniqueContentHashes sessionId).length = _
  rw [getUniqueContentHashes_eq, filterMap_contentHash_of_no_empty _ h,
    length_jsSetOfList_eq_length_dedup]

/-- A concrete storage with four pages of one session: two 2xx pages sharing
a hash, one transport-failure page (null status, null hash), one 404 page
with its own hash. -/
def statsDemoStorage : MemStorage :=
  ((((MemStorage.empty.createCrawledPage
    { sessionId := 1, url := "https://a.com/", statusCode := 200
      contentType := "text/html", size := 10, loadTime := 3, depth := 0
      contentHash := some "h1" } 0).2.createCrawledPage
    { sessionId := 1, url := "https://a.com/b", statusCode := 200
      contentType := "text/html", size := 10, loadTime := 3, depth := 1
      contentHash := some "h1" } 0).2.createCrawledPage
    { sessionId := 1, url := "https://a.com/broken", statusCode := 0
      contentType := "", size := 0, loadTime := 0, depth := 1
      contentHash := none } 0).2.createCrawledPage
    { sessionId := 1, url := "https://a.com/404", statusCode := 404
      contentType := "text/html", size := 4, loadTime := 2, depth := 1
      contentHash := some "h2" } 0).2

theorem C7_duplicate_accounting_witness :
    (progressStats statsDemoStorage 1).uniquePages =
      ((statsDemoStorage.getCrawledPagesBySession 1).filterMap
        (·.contentHash)).dedup.length ∧
    (progressStats statsDemoStorage 1).duplicateUrls =
      ((progressStats statsDemoStorage 1).totalFound : Int) -
        ((progressStats statsDemoStorage 1).uniquePages : Int) ∧
    (progressStats statsDemoStorage 1).totalFound =
      (statsDemoStorage.getCrawledPagesBySession 1).length :=
  C7_duplicate_accounting statsDemoStorage 1 (by decide)

/-! ## C9 — successful/errors classification in the progress statistics -/

theorem filter_jsStatusSuccessful_of_no_zero (l : List CrawledPage)
    (h : ∀ p ∈ l, p.statusCode ≠ some 0) :
    l.filter jsStatusSuccessful = l.filter (fun p =>
      match p.statusCode with
      | some c => decide (200 ≤ c) && decide (c < 300)
      | none => false) := by
  apply List.filter_congr
  intro p hp
  unfold jsStatusSuccessful
  cases hc : p.statusCode with
  | none => rfl
  | some c =>
    have : (c == 0) = false := by
      have := h p hp
      rw [hc] at this
      simp only [ne_eq, Option.some.injEq] at this
      simp [this]
    simp [this]

theorem filter_jsStatusError_of_no_zero (l : List CrawledPage)
    (h : ∀ p ∈ l, p.statusCode ≠ some 0) :
    l.filter jsStatusError = l.filter (fun p =>
      match p.statusCode with
      | some c => decide (400 ≤ c)
      | none => false) := by
  apply List.filter_congr
  intro p hp
  unfold jsStatusError
  cases hc : p.statusCode with
  | none => rfl
  | some c =>
    have : (c == 0) = false := by
      have := h p hp
      rw [hc] at this
      simp only [ne_eq, Option.some.injEq] at this
      simp [this]
    simp [this]

/-- C9: the stats field `successful` counts exactly the session's pages whose
stored statusCode lies in [200,300), `errors` counts exactly those with
stored statusCode ≥ 400, and a page stored with a null statusCode (as every
transport failure is) is counted by neither while still counting toward
totalFound. The hypothesis rules out a stored `some 0` statusCode, which
`createCrawledPage` makes unrepresentable (`0 || null` is `null`). -/
theorem C9_progress_status_counts (m : MemStorage) (sessionId : Nat)
    (h : ∀ p ∈ m.getCrawledPagesBySession sessionId, p.statusCode ≠ some 0) :
    (progressStats m sessionId).successful =
      ((m.getCrawledPagesBySession sessionId).filter (fun p =>
        match p.statusCode with
        | some c => decide (200 ≤ c) && decide (c < 300)
        | none => false)).length ∧
    (progressStats m sessionId).errors =
      ((m.getCrawledPagesBySession sessionId).filter (fun p =>
        match p.statusCode with
        | some c => decide (400 ≤ c)
        | none => false)).length ∧
    (∀ p ∈ m.getCrawledPagesBySession sessionId, p.statusCode = none →
      jsStatusSuccessful p = false ∧ jsStatusError p = false) ∧
    (progressStats m sessionId).totalFound =
      (m.getCrawledPagesBySession sessionId).length := by
  refine ⟨?_, ?_, ?_, rfl⟩
  · show ((m.getCrawledPagesBySession sessionId).filter jsStatusSuccessful).length = _
    rw [filter_jsStatusSuccessful_of_no_zero _ h]
  · show ((m.getCrawledPagesBySession sessionId).filter jsStatusError).length = _
    rw [filter_jsStatusError_of_no_zero _ h]
  · intro p _ hp
    unfold jsStatusSuccessful jsStatusError
    rw [hp]
    exact ⟨rfl, rfl⟩

theorem C9_progress_status_counts_witness :
    ((progressStats statsDemoStorage 1).successful =
      ((statsDemoStorage.getCrawledPagesBySession 1).filter (fun p =>
        match p.statusCode with
        | some c => decide (200 ≤ c) && decide (c < 300)
        | none => false)).length ∧
    (progressStats statsDemoStorage 1).errors =
      ((statsDemoStorage.getCrawledPagesBySession 1).filter (fun p =>
        match p.statusCode with
        | some c => decide (400 ≤ c)
        | none => false)).length ∧
    (∀ p ∈ statsDemoStorage.getCrawledPagesBySession 1, p.statusCode = none →
      jsStatusSuccessful p = false ∧ jsStatusError p = false) ∧
    (progressStats statsDemoStorage 1).totalFound =
      (statsDemoStorage.getCrawledPagesBySession 1).length) ∧
    (progressStats statsDemoStorage 1).successful +
        (progressStats statsDemoStorage 1).errors <
      (progressStats statsDemoStorage 1).totalFound :=
  ⟨C9_progress_status_counts statsDemoStorage 1 (by decide), by decide⟩

/-! ## C4 — maxPages is required by the start-request schema -/

theorem jsOrNullNat_of_pos {n : Nat} (h : 1 ≤ n) : jsOrNullNat (some n) = some n := by
  cases n with
  | zero => omega
  | succ k => rfl

theorem startCrawlSchemaParse_some (isUrl : String → Bool) (body : StartBody)
    (url : String) (mp md : Nat)
    (h : startCrawlSchemaParse isUrl body = some (url, mp, md)) :
    body.url = some url ∧ body.maxPages = some mp ∧ body.maxDepth = some md ∧
    isUrl url = true ∧ 1 ≤ mp ∧ mp ≤ 10000 ∧ 1 ≤ md ∧ md ≤ 20 := by
  unfold startCrawlSchemaParse at h
  cases hu : body.url with
  | none => rw [hu] at h; exact absurd h (by simp)
  | some u =>
    cases hm : body.maxPages with
    | none => rw [hu, hm] at h; exact absurd h (by simp)
    | some m =>
      cases hd2 : body.maxDepth with
      | none => rw [hu, hm, hd2] at h; exact absurd h (by simp)
      | some d =>
        rw [hu, hm, hd2] at h
        dsimp only at h
        by_cases hc : (isUrl u && decide (1 ≤ m) && decide (m ≤ 10000) &&
            decide (1 ≤ d) && decide (d ≤ 20)) = true
        · rw [if_pos hc] at h
          simp only [Option.some.injEq, Prod.mk.injEq] at h
          obtain ⟨h5, h6, h7⟩ := h
          subst h5
          subst h6
          subst h7
          simp only [Bool.and_eq_true, decide_eq_true_eq] at hc
          exact ⟨rfl, rfl, rfl, hc.1.1.1.1, hc.1.1.1.2, hc.1.1.2, hc.1.2, hc.2⟩
        · rw [if_neg hc] at h
          exact absurd h (by simp)

theorem startCrawlSchemaParse_none_of_no_maxPages (isUrl : String → Bool)
    (body : StartBody) (hmp : body.maxPages = none) :
    startCrawlSchemaParse isUrl body = none := by
  unfold startCrawlSchemaParse
  cases hu : body.url with
  | none => rfl
  | some u => rw [hmp]

/-- C4 (amended): the start-request schema requires maxPages — a request
omitting it is rejected with 400 and no session is created (no default of
1000 is applied; the 1000 figure is only a client-side form preset); when
maxPages is present a successful start implies it lies in [1,10000] and the
created session stores exactly the supplied value. -/
theorem C4_maxPages_required (isUrl : String → Bool) (body : StartBody)
    (m : MemStorage) (now : Nat) :
    (body.maxPages = none →
      startRoute isUrl body m now = (StartResponse.badRequest, m)) ∧
    (∀ sid, (startRoute isUrl body m now).1 = StartResponse.ok sid →
      ∃ mp, body.maxPages = some mp ∧ 1 ≤ mp ∧ mp ≤ 10000 ∧
        ((startRoute isUrl body m now).2.getCrawlSession sid).map (·.maxPages) =
          some (some mp)) := by
  constructor
  · intro hmp
    unfold startRoute
    rw [startCrawlSchemaParse_none_of_no_maxPages isUrl body hmp]
  · intro sid hok
    cases hp : startCrawlSchemaParse isUrl body with
    | none =>
      unfold startRoute at hok
      rw [hp] at hok
      exact absurd hok (by simp)
    | some parsed =>
      obtain ⟨hurl, hmp, hmd, hi, h1, h2, h3, h4⟩ :=
        startCrawlSchemaParse_some isUrl body parsed.1 parsed.2.1 parsed.2.2
          (by rw [hp])
      refine ⟨parsed.2.1, hmp, h1, h2, ?_⟩
      unfold startRoute at hok ⊢
      rw [hp] at hok ⊢
      simp only [StartResponse.ok.injEq] at hok
      subst hok
      have hrt := mapGet_mapSet m.crawlSessions m.currentSessionId
        ((m.createCrawlSession
          { url := parsed.1, maxPages := some parsed.2.1, maxDepth := parsed.2.2 }
          now).1)
      simp only [MemStorage.createCrawlSession, MemStorage.getCrawlSession] at hrt ⊢
      rw [hrt]
      simp [jsOrNullNat_of_pos h1]

/-- C4 counterexample: a start request whose url is a well-formed absolute
URL and whose maxDepth is 5 ∈ [1,20], but which omits maxPages, is rejected
with 400 and no session is created — contradicting the claim that it
succeeds with maxPages defaulted to 1000. -/
theorem C4_maxPages_counterexample :
    startRoute (fun s => s == "https://a.com/")
      { url := some "https://a.com/", maxPages := none, maxDepth := some 5 }
      MemStorage.empty 0 = (StartResponse.badRequest, MemStorage.empty) := by
  decide

theorem C4_maxPages_required_witness :
    (startRoute (fun s => s == "https://a.com/")
      { url := some "https://a.com/", maxPages := none, maxDepth := some 5 }
      MemStorage.empty 1 = (StartResponse.badRequest, MemStorage.empty)) ∧
    (∃ mp, (({ url := some "https://a.com/", maxPages := some 50,
               maxDepth := some 5 } : StartBody).maxPages = some mp) ∧
      1 ≤ mp ∧ mp ≤ 10000 ∧
      ((startRoute (fun s => s == "https://a.com/")
        { url := some "https://a.com/", maxPages := some 50, maxDepth := some 5 }
        MemStorage.empty 1).2.getCrawlSession 1).map (·.maxPages) =
          some (some mp)) :=
  ⟨(C4_maxPages_required _ _ _ _).1 rfl,
   (C4_maxPages_required _ _ _ _).2 1 (by decide)⟩

/-! ## Storage-level lemmas for the crawl-loop invariants -/

theorem updateCrawlSession_pages (m : MemStorage) (id : Nat) (u : SessionUpdates) :
    (m.updateCrawlSession id u).2.crawledPages = m.crawledPages ∧
    (m.updateCrawlSession id u).2.currentPageId = m.currentPageId := by
  unfold MemStorage.updateCrawlSession
  cases mapGet m.crawlSessions id <;> exact ⟨rfl, rfl⟩

theorem updateCrawlSession_lookup (m : MemStorage) (id : Nat) (u : SessionUpdates) :
    mapGet (m.updateCrawlSession id u).2.crawlSessions id =
      (mapGet m.crawlSessions id).map (fun s => applyUpdates s u) := by
  unfold MemStorage.updateCrawlSession
  cases h : mapGet m.crawlSessions id with
  | none => simp [h]
  | some s => simp [h, mapGet_mapSet]

theorem mapSet_eq_append_of_lt {α : Type} (l : List (Nat × α)) (k : Nat) (v : α)
    (h : ∀ kv ∈ l, kv.1 < k) : mapSet l k v = l ++ [(k, v)] := by
  unfold mapSet
  rw [if_neg]
  intro hc
  rw [List.any_eq_true] at hc
  obtain ⟨kv, hmem, hbeq⟩ := hc
  have h1 := h kv hmem
  have h2 : kv.1 = k := by simpa using hbeq
  omega

theorem createCrawledPage_spec (m : MemStorage) (ins : InsertCrawledPage) (now : Nat)
    (hfresh : ∀ kv ∈ m.crawledPages, kv.1 < m.currentPageId) :
    (m.createCrawledPage ins now).2.crawledPages =
      m.crawledPages ++ [(m.currentPageId, (m.createCrawledPage ins now).1)] ∧
    (m.createCrawledPage ins now).2.currentPageId = m.currentPageId + 1 ∧
    (m.createCrawledPage ins now).2.crawlSessions = m.crawlSessions ∧
    (m.createCrawledPage ins now).1 =
      { id := m.currentPageId, url := ins.url, sessionId := ins.sessionId
        statusCode := jsOrNullNat (some ins.statusCode)
        contentType := jsOrNullStr (some ins.contentType)
        size := jsOrNullNat (some ins.size)
        loadTime := jsOrNullNat (some ins.loadTime)
        depth := ins.depth, contentHash := ins.contentHash
        discoveredAt := now } := by
  refine ⟨?_, rfl, rfl, rfl⟩
  show mapSet m.crawledPages m.currentPageId _ = _
  exact mapSet_eq_append_of_lt _ _ _ hfresh

theorem pagesBySession_of_append (m m2 : MemStorage) (k : Nat) (page : CrawledPage)
    (h : m2.crawledPages = m.crawledPages ++ [(k, page)]) (sid : Nat) :
    m2.getCrawledPagesBySession sid =
      m.getCrawledPagesBySession sid ++
        (if page.sessionId == sid then [page] else []) := by
  unfold MemStorage.getCrawledPagesBySession
  rw [h, List.map_append, List.filter_append]
  congr 1
  simp [List.filter_cons]

theorem addPdfLinks_storage (sid : Nat) (pdfs : List String) (m : MemStorage) :
    (addPdfLinks sid pdfs m).crawlSessions = m.crawlSessions ∧
    (addPdfLinks sid pdfs m).crawledPages = m.crawledPages ∧
    (addPdfLinks sid pdfs m).currentPageId = m.currentPageId := by
  induction pdfs generalizing m with
  | nil => exact ⟨rfl, rfl, rfl⟩
  | cons hd tl ih => exact ih (m.addPdfLink sid hd)

theorem enqueueLinks_spec (maxPages depth : Nat) (links : List String)
    (st : LoopState) :
    (enqueueLinks maxPages depth links st).sys = st.sys ∧
    (enqueueLinks maxPages depth links st).visited = st.visited ∧
    (enqueueLinks maxPages depth links st).totalPages = st.totalPages ∧
    (enqueueLinks maxPages depth links st).successfulPages = st.successfulPages ∧
    (enqueueLinks maxPages depth links st).errorPages = st.errorPages := by
  unfold enqueueLinks
  induction links generalizing st with
  | nil => exact ⟨rfl, rfl, rfl, rfl, rfl⟩
  | cons hd tl ih =>
    rw [List.foldl_cons]
    by_cases hc : (!(st.visited.contains hd) && !(st.queued.contains hd) &&
        decide (st.queue.length + st.totalPages < maxPages)) = true
    · simpa only [hc, if_true] using ih
        { st with queue := st.queue ++ [(hd, depth)], queued := st.queued ++ [hd] }
    · simpa only [hc, if_false] using ih st

theorem seedSitemapUrls_spec (maxPages : Nat) (urls : List String) (st : LoopState) :
    (seedSitemapUrls maxPages urls st).sys = st.sys ∧
    (seedSitemapUrls maxPages urls st).visited = st.visited ∧
    (seedSitemapUrls maxPages urls st).totalPages = st.totalPages ∧
    (seedSitemapUrls maxPages urls st).successfulPages = st.successfulPages ∧
    (seedSitemapUrls maxPages urls st).errorPages = st.errorPages := by
  unfold seedSitemapUrls
  induction urls generalizing st with
  | nil => exact ⟨rfl, rfl, rfl, rfl, rfl⟩
  | cons hd tl ih =>
    rw [List.foldl_cons]
    by_cases hc : (!(st.visited.contains hd) && !(st.queued.contains hd) &&
        decide (st.queue.length < maxPages)) = true
    · simpa only [hc, if_true] using ih
        { st with queue := st.queue ++ [(hd, 0)], queued := st.queued ++ [hd] }
    · simpa only [hc, if_false] using ih st

theorem commitCounters_spec (sessionId : Nat) (st : LoopState) :
    (commitCounters sessionId st).totalPages = st.totalPages ∧
    (commitCounters sessionId st).successfulPages = st.successfulPages ∧
    (commitCounters sessionId st).errorPages = st.errorPages ∧
    (commitCounters sessionId st).visited = st.visited ∧
    (commitCounters sessionId st).sys.storage.crawledPages =
      st.sys.storage.crawledPages ∧
    (commitCounters sessionId st).sys.storage.currentPageId =
      st.sys.storage.currentPageId ∧
    mapGet (commitCounters sessionId st).sys.storage.crawlSessions sessionId =
      (mapGet st.sys.storage.crawlSessions sessionId).map (fun s =>
        applyUpdates s
          { totalPages := some st.totalPages
            successfulPages := some st.successfulPages
            errorPages := some st.errorPages }) := by
  refine ⟨rfl, rfl, rfl, rfl, ?_, ?_, ?_⟩
  · exact (updateCrawlSession_pages st.sys.storage sessionId _).1
  · exact (updateCrawlSession_pages st.sys.storage sessionId _).2
  · exact updateCrawlSession_lookup st.sys.storage sessionId _

theorem pagesBySession_congr (m1 m2 : MemStorage)
    (h : m2.crawledPages = m1.crawledPages) (sid : Nat) :
    m2.getCrawledPagesBySession sid = m1.getCrawledPagesBySession sid := by
  unfold MemStorage.getCrawledPagesBySession
  rw [h]

/-! ## The crawl-loop invariant -/

/-- The invariant maintained at every top-of-loop point of `startCrawling`:
the local counters add up and respect the budget, the committed session row
mirrors the local counters and has a live status, the session's page records
are in bijection with `totalPages`, page ids are fresh, every recorded page
was visited, transport-failure pages carry null statusCode/hash/contentType,
and no URL is recorded twice. -/
structure LoopInv (w : World) (sessionId maxPages : Nat) (st : LoopState) : Prop where
  counters : st.totalPages = st.successfulPages + st.errorPages
  budget : st.totalPages ≤ maxPages
  stored : ∀ s, mapGet st.sys.storage.crawlSessions sessionId = some s →
    s.totalPages = st.totalPages ∧ s.successfulPages = st.successfulPages ∧
      s.errorPages = st.errorPages
  statusOk : ∀ s, mapGet st.sys.storage.crawlSessions sessionId = some s →
    s.status = SessionStatus.running ∨ s.status = SessionStatus.stopped ∨
      s.status = SessionStatus.completed
  pageCount : (st.sys.storage.getCrawledPagesBySession sessionId).length = st.totalPages
  fresh : ∀ kv ∈ st.sys.storage.crawledPages, kv.1 < st.sys.storage.currentPageId
  pageChar : ∀ p ∈ st.sys.storage.getCrawledPagesBySession sessionId,
    p.url ∈ st.visited ∧
    (w.fetch p.url = FetchOutcome.failure →
      p.statusCode = none ∧ p.contentHash = none ∧ p.contentType = none)
  nodupUrls : ((st.sys.storage.getCrawledPagesBySession sessionId).map (·.url)).Nodup

/-- `LoopInv` without the stored-counter synchronisation: what holds between
a page-record write and the counter commit that follows it. -/
structure PreInv (w : World) (sessionId maxPages : Nat) (st : LoopState) : Prop where
  counters : st.totalPages = st.successfulPages + st.errorPages
  budget : st.totalPages ≤ maxPages
  statusOk : ∀ s, mapGet st.sys.storage.crawlSessions sessionId = some s →
    s.status = SessionStatus.running ∨ s.status = SessionStatus.stopped ∨
      s.status = SessionStatus.completed
  pageCount : (st.sys.storage.getCrawledPagesBySession sessionId).length = st.totalPages
  fresh : ∀ kv ∈ st.sys.storage.crawledPages, kv.1 < st.sys.storage.currentPageId
  pageChar : ∀ p ∈ st.sys.storage.getCrawledPagesBySession sessionId,
    p.url ∈ st.visited ∧
    (w.fetch p.url = FetchOutcome.failure →
      p.statusCode = none ∧ p.contentHash = none ∧ p.contentType = none)
  nodupUrls : ((st.sys.storage.getCrawledPagesBySession sessionId).map (·.url)).Nodup

theorem commitCounters_inv {w : World} {sessionId maxPages : Nat} {st : LoopState}
    (h : PreInv w sessionId maxPages st) :
    LoopInv w sessionId maxPages (commitCounters sessionId st) := by
  obtain ⟨hsp, hsc, hsl⟩ :
      (commitCounters sessionId st).sys.storage.crawledPages =
        st.sys.storage.crawledPages ∧
      (commitCounters sessionId st).sys.storage.currentPageId =
        st.sys.storage.currentPageId ∧
      mapGet (commitCounters sessionId st).sys.storage.crawlSessions sessionId =
        (mapGet st.sys.storage.crawlSessions sessionId).map (fun s =>
          applyUpdates s
            { totalPages := some st.totalPages
              successfulPages := some st.successfulPages
              errorPages := some st.errorPages }) := by
    have hspec := commitCounters_spec sessionId st
    exact ⟨hspec.2.2.2.2.1, hspec.2.2.2.2.2.1, hspec.2.2.2.2.2.2⟩
  have hpg := pagesBySession_congr st.sys.storage _ hsp sessionId
  refine ⟨h.counters, h.budget, ?_, ?_, ?_, ?_, ?_, ?_⟩
  · intro s hx
    rw [hsl] at hx
    rw [Option.map_eq_some'] at hx
    obtain ⟨s0, hs0, rfl⟩ := hx
    exact ⟨rfl, rfl, rfl⟩
  · intro s hx
    rw [hsl] at hx
    rw [Option.map_eq_some'] at hx
    obtain ⟨s0, hs0, rfl⟩ := hx
    exact h.statusOk s0 hs0
  · rw [hpg]; exact h.pageCount
  · intro kv hkv
    rw [hsp] at hkv
    rw [hsc]
    exact h.fresh kv hkv
  · intro p hp
    rw [hpg] at hp
    exact h.pageChar p hp
  · rw [hpg]; exact h.nodupUrls

theorem stopRoute_loopInv {w : World} {sessionId maxPages : Nat} {st : LoopState}
    (now : Nat) (h : LoopInv w sessionId maxPages st) :
    LoopInv w sessionId maxPages { st with sys := stopRoute st.sys sessionId now } := by
  have hsp : (stopRoute st.sys sessionId now).storage.crawledPages =
      st.sys.storage.crawledPages :=
    (updateCrawlSession_pages st.sys.storage sessionId _).1
  have hsc : (stopRoute st.sys sessionId now).storage.currentPageId =
      st.sys.storage.currentPageId :=
    (updateCrawlSession_pages st.sys.storage sessionId _).2
  have hsl : mapGet (stopRoute st.sys sessionId now).storage.crawlSessions sessionId =
      (mapGet st.sys.storage.crawlSessions sessionId).map (fun s =>
        applyUpdates s
          { status := some SessionStatus.stopped, completedAt := some (some now) }) :=
    updateCrawlSession_lookup st.sys.storage sessionId _
  have hpg := pagesBySession_congr st.sys.storage _ hsp sessionId
  refine ⟨h.counters, h.budget, ?_, ?_, ?_, ?_, ?_, ?_⟩
  · intro s hx
    rw [show ({ st with sys := stopRoute st.sys sessionId now } :
        LoopState).sys.storage.crawlSessions =
      (stopRoute st.sys sessionId now).storage.crawlSessions from rfl, hsl] at hx
    rw [Option.map_eq_some'] at hx
    obtain ⟨s0, hs0, rfl⟩ := hx
    exact h.stored s0 hs0
  · intro s hx
    rw [show ({ st with sys := stopRoute st.sys sessionId now } :
        LoopState).sys.storage.crawlSessions =
      (stopRoute st.sys sessionId now).storage.crawlSessions from rfl, hsl] at hx
    rw [Option.map_eq_some'] at hx
    obtain ⟨s0, hs0, rfl⟩ := hx
    exact Or.inr (Or.inl rfl)
  · rw [show ({ st with sys := stopRoute st.sys sessionId now } :
        LoopState).sys.storage = (stopRoute st.sys sessionId now).storage from rfl, hpg]
    exact h.pageCount
  · intro kv hkv
    rw [show ({ st with sys := stopRoute st.sys sessionId now } :
        LoopState).sys.storage = (stopRoute st.sys sessionId now).storage from rfl] at hkv ⊢
    rw [hsp] at hkv
    rw [hsc]
    exact h.fresh kv hkv
  · intro p hp
    rw [show ({ st with sys := stopRoute st.sys sessionId now } :
        LoopState).sys.storage = (stopRoute st.sys sessionId now).storage from rfl, hpg] at hp
    exact h.pageChar p hp
  · rw [show ({ st with sys := stopRoute st.sys sessionId now } :
        LoopState).sys.storage = (stopRoute st.sys sessionId now).storage from rfl, hpg]
    exact h.nodupUrls

/-! ## Crawl-step and crawl-loop invariant preservation -/


theorem not_mem_visited_of_skip_false {st : LoopState} {current : String × Nat}
    {maxDepth : Nat}
    (hskip : (st.visited.contains current.1 || decide (maxDepth < current.2)) = false) :
    current.1 ∉ st.visited ∧ current.2 ≤ maxDepth := by
  rw [Bool.or_eq_false_iff] at hskip
  constructor
  · intro hmem
    have hc : st.visited.contains current.1 = true := List.elem_eq_true_of_mem hmem
    rw [hc] at hskip
    exact absurd hskip.1 (by simp)
  · have h2 := hskip.2
    simp only [decide_eq_false_iff_not, not_lt] at h2
    exact h2

theorem crawlStep_inv (w : World) (sessionId : Nat) (startUrl : String)
    (maxPages maxDepth now : Nat) (st : LoopState)
    (hguard : st.totalPages < maxPages)
    (hinv : LoopInv w sessionId maxPages st) :
    LoopInv w sessionId maxPages
      (crawlStep w sessionId startUrl maxPages maxDepth now st) := by
  unfold crawlStep
  cases hq : st.queue with
  | nil =>
    exact ⟨hinv.counters, hinv.budget, hinv.stored, hinv.statusOk, hinv.pageCount,
      hinv.fresh, hinv.pageChar, hinv.nodupUrls⟩
  | cons current rest =>
    dsimp only [updateActiveCurrentUrl]
    by_cases hskip : (st.visited.contains current.1 || decide (maxDepth < current.2)) = true
    · rw [if_pos hskip]
      exact ⟨hinv.counters, hinv.budget, hinv.stored, hinv.statusOk, hinv.pageCount,
        hinv.fresh, hinv.pageChar, hinv.nodupUrls⟩
    · rw [if_neg hskip]
      rw [Bool.not_eq_true] at hskip
      obtain ⟨hnv, hdp⟩ := not_mem_visited_of_skip_false hskip
      have hurlmem : ∀ u ∈ st.visited, u ∈ st.visited ++ [current.1] :=
        fun u hu => List.mem_append_left _ hu
      have hcnt := hinv.counters
      cases hfetch : w.fetch current.1 with
      | failure =>
        dsimp only [updateActiveCurrentUrl]
        apply commitCounters_inv
        have hcp := createCrawledPage_spec st.sys.storage
          { sessionId := sessionId, url := current.1, statusCode := 0
            contentType := "", size := 0, loadTime := 0
            depth := current.2, contentHash := none } now hinv.fresh
        have hpage : (st.sys.storage.createCrawledPage
            { sessionId := sessionId, url := current.1, statusCode := 0
              contentType := "", size := 0, loadTime := 0
              depth := current.2, contentHash := none } now).1 =
            { id := st.sys.storage.currentPageId, url := current.1
              sessionId := sessionId, statusCode := none, contentType := none
              size := none, loadTime := none, depth := current.2
              contentHash := none, discoveredAt := now } := rfl
        have hpg := pagesBySession_of_append st.sys.storage _ _ _ hcp.1 sessionId
        rw [hpage] at hpg
        rw [if_pos (by simp)] at hpg
        refine ⟨?_, ?_, ?_, ?_, ?_, ?_, ?_⟩
        · show st.totalPages + 1 = st.successfulPages + (st.errorPages + 1)
          omega
        · show st.totalPages + 1 ≤ maxPages
          omega
        · intro s hx
          rw [hcp.2.2.1] at hx
          exact hinv.statusOk s hx
        · show (MemStorage.getCrawledPagesBySession _ sessionId).length = st.totalPages + 1
          rw [hpg, List.length_append, hinv.pageCount]
          rfl
        · intro kv hkv
          rw [hcp.1] at hkv
          rw [hcp.2.1]
          rcases List.mem_append.mp hkv with hold | hnew
          · exact Nat.lt_succ_of_lt (hinv.fresh kv hold)
          · rw [List.mem_singleton] at hnew
            subst hnew
            exact Nat.lt_succ_self _
        · intro p hp
          rw [hpg] at hp
          rcases List.mem_append.mp hp with hold | hnew
          · obtain ⟨hv, hfail⟩ := hinv.pageChar p hold
            exact ⟨hurlmem _ hv, hfail⟩
          · rw [List.mem_singleton] at hnew
            subst hnew
            exact ⟨List.mem_append_right _ (List.mem_singleton_self _),
              fun _ => ⟨rfl, rfl, rfl⟩⟩
        · rw [hpg, List.map_append]
          rw [List.nodup_append]
          refine ⟨hinv.nodupUrls, List.nodup_singleton _, ?_⟩
          intro a ha hb
          have h1 : a = current.1 := by simpa using hb
          subst h1
          rw [List.mem_map] at ha
          obtain ⟨p, hpmem, hpurl⟩ := ha
          have h2 := (hinv.pageChar p hpmem).1
          rw [hpurl] at h2
          exact hnv h2
      | response status ctype data loadTime =>
        dsimp only [updateActiveCurrentUrl]
        apply commitCounters_inv
        have hcp := createCrawledPage_spec st.sys.storage
          { sessionId := sessionId, url := current.1, statusCode := status
            contentType := contentTypeField ctype, size := sizeField w data
            loadTime := loadTime, depth := current.2
            contentHash := responseContentHash w status ctype data } now hinv.fresh
        have hpage : (st.sys.storage.createCrawledPage
            { sessionId := sessionId, url := current.1, statusCode := status
              contentType := contentTypeField ctype, size := sizeField w data
              loadTime := loadTime, depth := current.2
              contentHash := responseContentHash w status ctype data } now).1 =
            { id := st.sys.storage.currentPageId, url := current.1
              sessionId := sessionId
              statusCode := jsOrNullNat (some status)
              contentType := jsOrNullStr (some (contentTypeField ctype))
              size := jsOrNullNat (some (sizeField w data))
              loadTime := jsOrNullNat (some loadTime)
              depth := current.2
              contentHash := responseContentHash w status ctype data
              discoveredAt := now } := rfl
        have hpg := pagesBySession_of_append st.sys.storage _ _ _ hcp.1 sessionId
        rw [hpage] at hpg
        rw [if_pos (by simp)] at hpg
        have hfreshX : ∀ kv ∈ (st.sys.storage.createCrawledPage
            { sessionId := sessionId, url := current.1, statusCode := status
              contentType := contentTypeField ctype, size := sizeField w data
              loadTime := loadTime, depth := current.2
              contentHash := responseContentHash w status ctype data } now).2.crawledPages,
            kv.1 < (st.sys.storage.createCrawledPage
            { sessionId := sessionId, url := current.1, statusCode := status
              contentType := contentTypeField ctype, size := sizeField w data
              loadTime := loadTime, depth := current.2
              contentHash := responseContentHash w status ctype data } now).2.currentPageId := by
          intro kv hkv
          rw [hcp.1] at hkv
          rw [hcp.2.1]
          rcases List.mem_append.mp hkv with hold | hnew
          · exact Nat.lt_succ_of_lt (hinv.fresh kv hold)
          · rw [List.mem_singleton] at hnew
            subst hnew
            exact Nat.lt_succ_self _
        have hcharX : ∀ p ∈ st.sys.storage.getCrawledPagesBySession sessionId ++
            [({ id := st.sys.storage.currentPageId, url := current.1
                sessionId := sessionId
                statusCode := jsOrNullNat (some status)
                contentType := jsOrNullStr (some (contentTypeField ctype))
                size := jsOrNullNat (some (sizeField w data))
                loadTime := jsOrNullNat (some loadTime)
                depth := current.2
                contentHash := responseContentHash w status ctype data
                discoveredAt := now } : CrawledPage)],
            p.url ∈ st.visited ++ [current.1] ∧
            (w.fetch p.url = FetchOutcome.failure →
              p.statusCode = none ∧ p.contentHash = none ∧ p.contentType = none) := by
          intro p hp
          rcases List.mem_append.mp hp with hold | hnew
          · obtain ⟨hv, hfail⟩ := hinv.pageChar p hold
            exact ⟨hurlmem _ hv, hfail⟩
          · rw [List.mem_singleton] at hnew
            subst hnew
            refine ⟨List.mem_append_right _ (List.mem_singleton_self _), fun hf => ?_⟩
            exact absurd (hfetch.symm.trans hf) (by simp)
        have hnodupX : ((st.sys.storage.getCrawledPagesBySession sessionId ++
            [({ id := st.sys.storage.currentPageId, url := current.1
                sessionId := sessionId
                statusCode := jsOrNullNat (some status)
                contentType := jsOrNullStr (some (contentTypeField ctype))
                size := jsOrNullNat (some (sizeField w data))
                loadTime := jsOrNullNat (some loadTime)
                depth := current.2
                contentHash := responseContentHash w status ctype data
                discoveredAt := now } : CrawledPage)]).map (·.url)).Nodup := by
          rw [List.map_append, List.nodup_append]
          refine ⟨hinv.nodupUrls, List.nodup_singleton _, ?_⟩
          intro a ha hb
          have h1 : a = current.1 := by simpa using hb
          subst h1
          rw [List.mem_map] at ha
          obtain ⟨p, hpmem, hpurl⟩ := ha
          have h2 := (hinv.pageChar p hpmem).1
          rw [hpurl] at h2
          exact hnv h2
        by_cases h2xx : (decide (200 ≤ status) && decide (status < 300)) = true
        · rw [if_pos h2xx]
          by_cases hhtml : (decide (current.2 < maxDepth) &&
              ctypeIncludes ctype "text/html") = true
          · rw [if_pos hhtml]
            refine ⟨?_, ?_, ?_, ?_, ?_, ?_, ?_⟩
            · rw [(enqueueLinks_spec _ _ _ _).2.2.1, (enqueueLinks_spec _ _ _ _).2.2.2.1,
                (enqueueLinks_spec _ _ _ _).2.2.2.2]
              show st.totalPages + 1 = st.successfulPages + 1 + st.errorPages
              omega
            · rw [(enqueueLinks_spec _ _ _ _).2.2.1]
              show st.totalPages + 1 ≤ maxPages
              omega
            · intro s hx
              rw [(enqueueLinks_spec _ _ _ _).1] at hx
              rw [(addPdfLinks_storage _ _ _).1] at hx
              rw [hcp.2.2.1] at hx
              exact hinv.statusOk s hx
            · rw [(enqueueLinks_spec _ _ _ _).1, (enqueueLinks_spec _ _ _ _).2.2.1]
              rw [pagesBySession_congr _ _ ((addPdfLinks_storage _ _ _).2.1) sessionId]
              rw [hpg, List.length_append, hinv.pageCount]
              rfl
            · intro kv hkv
              rw [(enqueueLinks_spec _ _ _ _).1] at hkv ⊢
              rw [(addPdfLinks_storage _ _ _).2.1] at hkv
              rw [(addPdfLinks_storage _ _ _).2.2]
              exact hfreshX kv hkv
            · intro p hp
              rw [(enqueueLinks_spec _ _ _ _).1] at hp
              rw [pagesBySession_congr _ _ ((addPdfLinks_storage _ _ _).2.1) sessionId]
                at hp
              rw [hpg] at hp
              rw [(enqueueLinks_spec _ _ _ _).2.1]
              exact hcharX p hp
            · rw [(enqueueLinks_spec _ _ _ _).1]
              rw [pagesBySession_congr _ _ ((addPdfLinks_storage _ _ _).2.1) sessionId]
              rw [hpg]
              exact hnodupX
          · rw [if_neg hhtml]
            refine ⟨?_, ?_, ?_, ?_, ?_, ?_, ?_⟩
            · show st.totalPages + 1 = st.successfulPages + 1 + st.errorPages
              omega
            · show st.totalPages + 1 ≤ maxPages
              omega
            · intro s hx
              rw [hcp.2.2.1] at hx
              exact hinv.statusOk s hx
            · show (MemStorage.getCrawledPagesBySession _ sessionId).length =
                st.totalPages + 1
              rw [hpg, List.length_append, hinv.pageCount]
              rfl
            · exact hfreshX
            · intro p hp
              rw [hpg] at hp
              exact hcharX p hp
            · rw [hpg]
              exact hnodupX
        · rw [if_neg h2xx]
          refine ⟨?_, ?_, ?_, ?_, ?_, ?_, ?_⟩
          · show st.totalPages + 1 = st.successfulPages + (st.errorPages + 1)
            omega
          · show st.totalPages + 1 ≤ maxPages
            omega
          · intro s hx
            rw [hcp.2.2.1] at hx
            exact hinv.statusOk s hx
          · show (MemStorage.getCrawledPagesBySession _ sessionId).length =
              st.totalPages + 1
            rw [hpg, List.length_append, hinv.pageCount]
            rfl
          · exact hfreshX
          · intro p hp
            rw [hpg] at hp
            exact hcharX p hp
          · rw [hpg]
            exact hnodupX



theorem crawlLoop_inv (w : World) (stops : Nat → Bool) (sessionId : Nat)
    (startUrl : String) (maxPages maxDepth now : Nat) :
    ∀ (fuel i : Nat) (st : LoopState), LoopInv w sessionId maxPages st →
      LoopInv w sessionId maxPages
        (crawlLoop w stops sessionId startUrl maxPages maxDepth now fuel i st).1 := by
  intro fuel
  induction fuel with
  | zero => exact fun i st h => h
  | succ fuel ih =>
    intro i st h
    have hbase : LoopInv w sessionId maxPages
        (if stops i then { st with sys := stopRoute st.sys sessionId now } else st) := by
      by_cases hstop : stops i
      · rw [if_pos hstop]
        exact stopRoute_loopInv now h
      · rw [if_neg hstop]
        exact h
    rw [crawlLoop]
    set st2 := if stops i then { st with sys := stopRoute st.sys sessionId now } else st
      with hst2
    by_cases hguard : (st2.queue.isEmpty || !(decide (st2.totalPages < maxPages))) = true
    · rw [if_pos hguard]
      exact hbase
    · rw [if_neg hguard]
      by_cases hflag :
          ((mapGet st2.sys.activeCrawls sessionId).map (·.shouldStop)).getD false = true
      · rw [if_pos hflag]
        exact hbase
      · rw [if_neg hflag]
        apply ih
        apply crawlStep_inv
        · have h2 := hguard
          simp only [Bool.or_eq_true, not_or, Bool.not_eq_true, Bool.not_eq_false',
            decide_eq_true_eq] at h2
          exact h2.2
        · exact hbase

/-- `LoopInv` holds at the start of the crawl loop: zero counters, a freshly
running session, no recorded pages. -/
theorem loopInv_init (w : World) (sessionId maxPages : Nat) (st : LoopState)
    (hstored : ∀ s, mapGet st.sys.storage.crawlSessions sessionId = some s →
      s.totalPages = 0 ∧ s.successfulPages = 0 ∧ s.errorPages = 0 ∧
        (s.status = SessionStatus.running ∨ s.status = SessionStatus.stopped ∨
          s.status = SessionStatus.completed))
    (hpages : st.sys.storage.getCrawledPagesBySession sessionId = [])
    (hfresh : ∀ kv ∈ st.sys.storage.crawledPages, kv.1 < st.sys.storage.currentPageId)
    (hcnt : st.totalPages = 0 ∧ st.successfulPages = 0 ∧ st.errorPages = 0) :
    LoopInv w sessionId maxPages st := by
  obtain ⟨h1, h2, h3⟩ := hcnt
  refine ⟨?_, ?_, ?_, ?_, ?_, hfresh, ?_, ?_⟩
  · rw [h1, h2, h3]
  · rw [h1]
    exact Nat.zero_le _
  · intro s hx
    obtain ⟨c1, c2, c3, _⟩ := hstored s hx
    rw [h1, h2, h3]
    exact ⟨c1, c2, c3⟩
  · intro s hx
    exact (hstored s hx).2.2.2
  · rw [hpages, h1]
    rfl
  · intro p hp
    rw [hpages] at hp
    exact absurd hp (by simp)
  · rw [hpages]
    exact List.nodup_nil

theorem seedSitemapUrls_inv {w : World} {sessionId maxPages : Nat}
    (urls : List String) (st : LoopState)
    (h : LoopInv w sessionId maxPages st) :
    LoopInv w sessionId maxPages (seedSitemapUrls maxPages urls st) := by
  have hsp := seedSitemapUrls_spec maxPages urls st
  refine ⟨?_, ?_, ?_, ?_, ?_, ?_, ?_, ?_⟩
  · rw [hsp.2.2.1, hsp.2.2.2.1, hsp.2.2.2.2]
    exact h.counters
  · rw [hsp.2.2.1]
    exact h.budget
  · rw [hsp.1, hsp.2.2.1, hsp.2.2.2.1, hsp.2.2.2.2]
    exact h.stored
  · rw [hsp.1]
    exact h.statusOk
  · rw [hsp.1, hsp.2.2.1]
    exact h.pageCount
  · rw [hsp.1]
    exact h.fresh
  · intro p hp
    rw [hsp.1] at hp
    rw [hsp.2.1]
    exact h.pageChar p hp
  · rw [hsp.1]
    exact h.nodupUrls

/-- What holds of the shared system state at every point during and after a
crawl launched on a freshly created session. -/
structure CrawlPost (w : World) (sessionId maxPages : Nat) (sys : SysState) : Prop where
  stored : ∀ s, mapGet sys.storage.crawlSessions sessionId = some s →
    s.totalPages = s.successfulPages + s.errorPages ∧ s.totalPages ≤ maxPages ∧
    (s.status = SessionStatus.running ∨ s.status = SessionStatus.stopped ∨
      s.status = SessionStatus.completed)
  pageCount : (sys.storage.getCrawledPagesBySession sessionId).length ≤ maxPages
  pageFail : ∀ p ∈ sys.storage.getCrawledPagesBySession sessionId,
    w.fetch p.url = FetchOutcome.failure →
      p.statusCode = none ∧ p.contentHash = none ∧ p.contentType = none
  nodupUrls : ((sys.storage.getCrawledPagesBySession sessionId).map (·.url)).Nodup

theorem crawlPost_of_loopInv {w : World} {sessionId maxPages : Nat} {st : LoopState}
    (h : LoopInv w sessionId maxPages st) : CrawlPost w sessionId maxPages st.sys := by
  refine ⟨?_, ?_, ?_, ?_⟩
  · intro s hx
    obtain ⟨h1, h2, h3⟩ := h.stored s hx
    refine ⟨?_, ?_, h.statusOk s hx⟩
    · rw [h1, h2, h3]
      exact h.counters
    · rw [h1]
      exact h.budget
  · rw [h.pageCount]
    exact h.budget
  · exact fun p hp => (h.pageChar p hp).2
  · exact h.nodupUrls

/-- The final session update of a terminating crawl (status + counters) and
the active-entry cleanup preserve the crawl postcondition. -/
theorem finalUpdate_post (w : World) (sessionId maxPages : Nat) (st : LoopState)
    (u : SessionUpdates) (h : LoopInv w sessionId maxPages st)
    (hu1 : u.totalPages = some st.totalPages)
    (hu2 : u.successfulPages = some st.successfulPages)
    (hu3 : u.errorPages = some st.errorPages)
    (hu4 : u.status = some SessionStatus.stopped ∨
      u.status = some SessionStatus.completed)
    (ac : List (Nat × ActiveCrawl)) :
    CrawlPost w sessionId maxPages
      { storage := (st.sys.storage.updateCrawlSession sessionId u).2
        activeCrawls := ac } := by
  have hpgeq := pagesBySession_congr st.sys.storage
    (st.sys.storage.updateCrawlSession sessionId u).2
    (updateCrawlSession_pages st.sys.storage sessionId u).1 sessionId
  refine ⟨?_, ?_, ?_, ?_⟩
  · intro s hx
    have hx2 : mapGet (st.sys.storage.updateCrawlSession sessionId u).2.crawlSessions
        sessionId = some s := hx
    rw [updateCrawlSession_lookup] at hx2
    rw [Option.map_eq_some'] at hx2
    obtain ⟨s1, hs1, rfl⟩ := hx2
    refine ⟨?_, ?_, ?_⟩
    · show u.totalPages.getD s1.totalPages =
        u.successfulPages.getD s1.successfulPages + u.errorPages.getD s1.errorPages
      rw [hu1, hu2, hu3]
      exact h.counters
    · show u.totalPages.getD s1.totalPages ≤ maxPages
      rw [hu1]
      exact h.budget
    · show u.status.getD s1.status = SessionStatus.running ∨
        u.status.getD s1.status = SessionStatus.stopped ∨
        u.status.getD s1.status = SessionStatus.completed
      rcases hu4 with h4 | h4
      · rw [h4]
        exact Or.inr (Or.inl rfl)
      · rw [h4]
        exact Or.inr (Or.inr rfl)
  · show ((st.sys.storage.updateCrawlSession sessionId
        u).2.getCrawledPagesBySession sessionId).length ≤ maxPages
    rw [hpgeq, h.pageCount]
    exact h.budget
  · intro p hp
    have hp2 : p ∈ (st.sys.storage.updateCrawlSession sessionId
        u).2.getCrawledPagesBySession sessionId := hp
    rw [hpgeq] at hp2
    exact (h.pageChar p hp2).2
  · show (((st.sys.storage.updateCrawlSession sessionId
        u).2.getCrawledPagesBySession sessionId).map (·.url)).Nodup
    rw [hpgeq]
    exact h.nodupUrls

/-- The tail of `startCrawling` after the loop returns. -/
theorem crawlFinish_post (w : World) (sessionId maxPages now : Nat)
    (res : LoopState × Bool) (h : LoopInv w sessionId maxPages res.1) :
    CrawlPost w sessionId maxPages
      ((if res.2 then
         (({ storage := (res.1.sys.storage.updateCrawlSession sessionId
              { status := some
                  (if ((mapGet res.1.sys.activeCrawls sessionId).map
                      (·.shouldStop)).getD false then SessionStatus.stopped
                   else SessionStatus.completed)
                completedAt := some (some now)
                totalPages := some res.1.totalPages
                successfulPages := some res.1.successfulPages
                errorPages := some res.1.errorPages }).2
             activeCrawls := mapDelete res.1.sys.activeCrawls sessionId } : SysState),
          true)
        else (res.1.sys, false)).1) := by
  by_cases hdone : res.2 = true
  · rw [if_pos hdone]
    apply finalUpdate_post w sessionId maxPages res.1 _ h rfl rfl rfl
    by_cases hfl : ((mapGet res.1.sys.activeCrawls sessionId).map
        (·.shouldStop)).getD false = true
    · left
      rw [if_pos hfl]
    · right
      rw [if_neg hfl]
  · rw [if_neg hdone]
    exact crawlPost_of_loopInv h

theorem startCrawling_post (w : World) (stops : Nat → Bool) (fuel : Nat)
    (sys : SysState) (sessionId : Nat) (startUrl : String)
    (maxPages maxDepth now : Nat)
    (hstored : ∀ s, mapGet sys.storage.crawlSessions sessionId = some s →
      s.totalPages = 0 ∧ s.successfulPages = 0 ∧ s.errorPages = 0)
    (hpages : sys.storage.getCrawledPagesBySession sessionId = [])
    (hfresh : ∀ kv ∈ sys.storage.crawledPages, kv.1 < sys.storage.currentPageId) :
    CrawlPost w sessionId maxPages
      (startCrawling w stops fuel sys sessionId startUrl maxPages maxDepth now).1 := by
  unfold startCrawling
  cases hlk : mapGet sys.storage.crawlSessions sessionId with
  | none =>
    simp only [MemStorage.updateCrawlSession, hlk]
    refine ⟨?_, ?_, ?_, ?_⟩
    · intro s hx
      rw [show ({ sys with storage := sys.storage } : SysState).storage.crawlSessions =
        sys.storage.crawlSessions from rfl, hlk] at hx
      exact absurd hx (by simp)
    · rw [show ({ sys with storage := sys.storage } : SysState).storage =
        sys.storage from rfl, hpages]
      exact Nat.zero_le _
    · intro p hp
      rw [show ({ sys with storage := sys.storage } : SysState).storage =
        sys.storage from rfl, hpages] at hp
      exact absurd hp (by simp)
    · rw [show ({ sys with storage := sys.storage } : SysState).storage =
        sys.storage from rfl, hpages]
      exact List.nodup_nil
  | some s0 =>
    simp only [MemStorage.updateCrawlSession, hlk]
    refine crawlFinish_post w sessionId maxPages now _
      (crawlLoop_inv w stops sessionId startUrl maxPages maxDepth now fuel 0 _
        (seedSitemapUrls_inv _ _ (loopInv_init w sessionId maxPages _ ?_ ?_ ?_
          ⟨rfl, rfl, rfl⟩)))
    · intro s hx
      rw [show ∀ x : CrawlSession,
          mapGet (mapSet sys.storage.crawlSessions sessionId x) sessionId = some x
          from fun x => mapGet_mapSet _ _ _] at hx
      rw [Option.some.injEq] at hx
      subst hx
      obtain ⟨c1, c2, c3⟩ := hstored s0 hlk
      exact ⟨c1, c2, c3, Or.inl rfl⟩
    · exact hpages
    · exact hfresh


/-! ## Concrete worlds and runs used by witnesses and counterexamples -/

/-- A demo `JsUrl` for `https://a.com/`. -/
def aComUrl : JsUrl :=
  { origin := "https://a.com", hostname := "a.com", pathname := "/", search := ""
    hash := "" }

/-- A world where every fetch fails at the transport level and there is no
sitemap. -/
def failWorld : World :=
  { fetch := fun _ => FetchOutcome.failure
    sitemapLocs := fun _ => none
    hrefs := fun _ => []
    htmlNormText := fun _ => none
    parse := fun s => if s == "https://a.com/" then some aComUrl else none
    resolve := fun _ _ => none
    jsonLength := fun _ => 0 }

/-- A storage holding one freshly created session (id 1) for
`https://a.com/` with maxPages 10, maxDepth 2. -/
def demoStorage : MemStorage :=
  (MemStorage.empty.createCrawlSession
    { url := "https://a.com/", maxPages := some 10, maxDepth := 2 } 0).2

/-- The system state after running the all-failures crawl of session 1 to
completion. -/
def failRunSys : SysState :=
  (startCrawling failWorld (fun _ => false) 5
    { storage := demoStorage, activeCrawls := [] } 1 "https://a.com/" 10 2 7).1

/-! ## C2 — counter invariant -/

/-- C2: at every point after session start — for every fuel bound, every
stop-request schedule and every world, i.e. after every counter commit the
crawl loop performs and at the final commit — the stored session counters
satisfy totalPages = successfulPages + errorPages. The three hypotheses say
the session was freshly created: zero counters, no pages, fresh page ids. -/
theorem C2_counter_invariant (w : World) (stops : Nat → Bool) (fuel : Nat)
    (sys : SysState) (sessionId : Nat) (startUrl : String)
    (maxPages maxDepth now : Nat)
    (hstored : ∀ s, mapGet sys.storage.crawlSessions sessionId = some s →
      s.totalPages = 0 ∧ s.successfulPages = 0 ∧ s.errorPages = 0)
    (hpages : sys.storage.getCrawledPagesBySession sessionId = [])
    (hfresh : ∀ kv ∈ sys.storage.crawledPages, kv.1 < sys.storage.currentPageId) :
    ∀ s, mapGet (startCrawling w stops fuel sys sessionId startUrl maxPages
        maxDepth now).1.storage.crawlSessions sessionId = some s →
      s.totalPages = s.successfulPages + s.errorPages :=
  fun s hx => ((startCrawling_post w stops fuel sys sessionId startUrl maxPages
    maxDepth now hstored hpages hfresh).stored s hx).1

theorem C2_counter_invariant_witness :
    (∀ s, mapGet ({ storage := demoStorage, activeCrawls := [] } :
        SysState).storage.crawlSessions 1 = some s →
      s.totalPages = 0 ∧ s.successfulPages = 0 ∧ s.errorPages = 0) ∧
    ((startCrawling failWorld (fun _ => false) 5
        { storage := demoStorage, activeCrawls := [] } 1 "https://a.com/" 10 2
        7).1.storage.getCrawlSession 1).isSome = true ∧
    (∀ s, mapGet (startCrawling failWorld (fun _ => false) 5
        { storage := demoStorage, activeCrawls := [] } 1 "https://a.com/" 10 2
        7).1.storage.crawlSessions 1 = some s →
      s.totalPages = s.successfulPages + s.errorPages) :=
  ⟨by decide, by decide,
   C2_counter_invariant failWorld (fun _ => false) 5
     { storage := demoStorage, activeCrawls := [] } 1 "https://a.com/" 10 2 7
     (by decide) (by decide) (by decide)⟩

/-! ## C6 — page budget -/

/-- C6: the stored totalPages counter never exceeds maxPages, and at most
maxPages CrawledPage records are ever created for the session — for every
fuel bound (i.e. at every point during the crawl) and after termination. -/
theorem C6_page_budget (w : World) (stops : Nat → Bool) (fuel : Nat)
    (sys : SysState) (sessionId : Nat) (startUrl : String)
    (maxPages maxDepth now : Nat)
    (hstored : ∀ s, mapGet sys.storage.crawlSessions sessionId = some s →
      s.totalPages = 0 ∧ s.successfulPages = 0 ∧ s.errorPages = 0)
    (hpages : sys.storage.getCrawledPagesBySession sessionId = [])
    (hfresh : ∀ kv ∈ sys.storage.crawledPages, kv.1 < sys.storage.currentPageId) :
    (∀ s, mapGet (startCrawling w stops fuel sys sessionId startUrl maxPages
        maxDepth now).1.storage.crawlSessions sessionId = some s →
      s.totalPages ≤ maxPages) ∧
    ((startCrawling w stops fuel sys sessionId startUrl maxPages
        maxDepth now).1.storage.getCrawledPagesBySession sessionId).length ≤
      maxPages := by
  have hpost := startCrawling_post w stops fuel sys sessionId startUrl maxPages
    maxDepth now hstored hpages hfresh
  exact ⟨fun s hx => (hpost.stored s hx).2.1, hpost.pageCount⟩

theorem C6_page_budget_witness :
    (∀ s, mapGet ({ storage := demoStorage, activeCrawls := [] } :
        SysState).storage.crawlSessions 1 = some s →
      s.totalPages = 0 ∧ s.successfulPages = 0 ∧ s.errorPages = 0) ∧
    ((∀ s, mapGet (startCrawling failWorld (fun _ => false) 5
        { storage := demoStorage, activeCrawls := [] } 1 "https://a.com/" 10 2
        7).1.storage.crawlSessions 1 = some s →
      s.totalPages ≤ 10) ∧
    ((startCrawling failWorld (fun _ => false) 5
        { storage := demoStorage, activeCrawls := [] } 1 "https://a.com/" 10 2
        7).1.storage.getCrawledPagesBySession 1).length ≤ 10) :=
  ⟨by decide,
   C6_page_budget failWorld (fun _ => false) 5
     { storage := demoStorage, activeCrawls := [] } 1 "https://a.com/" 10 2 7
     (by decide) (by decide) (by decide)⟩

/-! ## C5 — status transitions and the stop route -/

/-- C5 counterexample: run a crawl to completion (status `completed`, a
terminal state) and then serve a StopCrawl request: the session's status
changes to `stopped`. This refutes the claim that no operation — including
StopCrawl — changes the status of a session already in a terminal state. -/
theorem C5_stop_on_completed_counterexample :
    ((failRunSys.storage.getCrawlSession 1).map (·.status) =
      some SessionStatus.completed) ∧
    (((stopRoute failRunSys 1 9).storage.getCrawlSession 1).map (·.status) =
      some SessionStatus.stopped) := by
  decide

/-- C5 (amended): during a crawl the stored status only moves forward among
`running`, `stopped`, `completed` (it never returns to `pending`), but
StopCrawl is not guarded by the current status: on any existing session —
terminal or not — it unconditionally rewrites the row with status `stopped`
(so `completed → stopped` is reachable). -/
theorem C5_status_transitions :
    (∀ (sys : SysState) (sessionId now : Nat) (s : CrawlSession),
      mapGet sys.storage.crawlSessions sessionId = some s →
      mapGet (stopRoute sys sessionId now).storage.crawlSessions sessionId =
        some (applyUpdates s
          { status := some SessionStatus.stopped
            completedAt := some (some now) }) ∧
      (applyUpdates s
        { status := some SessionStatus.stopped
          completedAt := some (some now) }).status = SessionStatus.stopped) ∧
    (∀ (w : World) (stops : Nat → Bool) (fuel : Nat) (sys : SysState)
      (sessionId : Nat) (startUrl : String) (maxPages maxDepth now : Nat),
      (∀ s, mapGet sys.storage.crawlSessions sessionId = some s →
        s.totalPages = 0 ∧ s.successfulPages = 0 ∧ s.errorPages = 0) →
      sys.storage.getCrawledPagesBySession sessionId = [] →
      (∀ kv ∈ sys.storage.crawledPages, kv.1 < sys.storage.currentPageId) →
      ∀ s, mapGet (startCrawling w stops fuel sys sessionId startUrl maxPages
          maxDepth now).1.storage.crawlSessions sessionId = some s →
        s.status = SessionStatus.running ∨ s.status = SessionStatus.stopped ∨
          s.status = SessionStatus.completed) := by
  constructor
  · intro sys sessionId now s hmem
    refine ⟨?_, rfl⟩
    show mapGet (sys.storage.updateCrawlSession sessionId
      { status := some SessionStatus.stopped
        completedAt := some (some now) }).2.crawlSessions sessionId = _
    rw [updateCrawlSession_lookup, hmem]
    rfl
  · intro w stops fuel sys sessionId startUrl maxPages maxDepth now h1 h2 h3 s hx
    exact ((startCrawling_post w stops fuel sys sessionId startUrl maxPages
      maxDepth now h1 h2 h3).stored s hx).2.2

theorem C5_status_transitions_witness :
    ((mapGet failRunSys.storage.crawlSessions 1).isSome = true) ∧
    (((stopRoute failRunSys 1 9).storage.getCrawlSession 1).map (·.status) =
      some SessionStatus.stopped) ∧
    (∀ s, mapGet (startCrawling failWorld (fun _ => false) 5
        { storage := demoStorage, activeCrawls := [] } 1 "https://a.com/" 10 2
        7).1.storage.crawlSessions 1 = some s →
      s.status = SessionStatus.running ∨ s.status = SessionStatus.stopped ∨
        s.status = SessionStatus.completed) := by
  refine ⟨by decide, ?_, ?_⟩
  · have h := (C5_status_transitions.1 failRunSys 1 9
      ((mapGet failRunSys.storage.crawlSessions 1).get (by decide))
      (by simp)).1
    rw [MemStorage.getCrawlSession, h]
    decide
  · exact C5_status_transitions.2 failWorld (fun _ => false) 5
      { storage := demoStorage, activeCrawls := [] } 1 "https://a.com/" 10 2 7
      (by decide) (by decide) (by decide)



/-! ## C1 — transport-failure recording -/

theorem countP_url_le_one (l : List CrawledPage)
    (h : (l.map (·.url)).Nodup) (u : String) :
    l.countP (fun p => p.url == u) ≤ 1 := by
  induction l with
  | nil => simp
  | cons hd tl ih =>
    rw [List.map_cons, List.nodup_cons] at h
    rw [List.countP_cons]
    by_cases hc : (hd.url == u) = true
    · have hu : hd.url = u := by simpa using hc
      have h0 : tl.countP (fun p => p.url == u) = 0 := by
        rw [List.countP_eq_zero]
        intro p hp hpc
        have hpu : p.url = u := by simpa using hpc
        exact h.1 (by rw [hu, ← hpu]; exact List.mem_map_of_mem _ hp)
      rw [h0, hc]
      simp
    · have hc0 : (hd.url == u) = false := by simpa using hc
      rw [hc0]
      simpa using ih h.2

/-- The effect of one crawl-loop iteration whose fetch fails at the
transport level: exactly one page is appended for the dequeued URL, its
stored statusCode, contentType and contentHash are all null, totalPages and
errorPages each grow by one and successfulPages is unchanged. -/
theorem crawlStep_failure_effects (w : World) (sessionId : Nat)
    (startUrl : String) (maxPages maxDepth now : Nat) (st : LoopState)
    (url : String) (d : Nat) (rest : List (String × Nat))
    (hq : st.queue = (url, d) :: rest)
    (hnv : st.visited.contains url = false)
    (hdp : ¬ maxDepth < d)
    (hfetch : w.fetch url = FetchOutcome.failure)
    (hfresh : ∀ kv ∈ st.sys.storage.crawledPages,
      kv.1 < st.sys.storage.currentPageId) :
    (crawlStep w sessionId startUrl maxPages maxDepth now st).totalPages =
        st.totalPages + 1 ∧
    (crawlStep w sessionId startUrl maxPages maxDepth now st).errorPages =
        st.errorPages + 1 ∧
    (crawlStep w sessionId startUrl maxPages maxDepth now st).successfulPages =
        st.successfulPages ∧
    (crawlStep w sessionId startUrl maxPages maxDepth now
        st).sys.storage.getCrawledPagesBySession sessionId =
      st.sys.storage.getCrawledPagesBySession sessionId ++
        [{ id := st.sys.storage.currentPageId, url := url, sessionId := sessionId
           statusCode := none, contentType := none, size := none, loadTime := none
           depth := d, contentHash := none, discoveredAt := now }] := by
  have hcp := createCrawledPage_spec st.sys.storage
    { sessionId := sessionId, url := url, statusCode := 0
      contentType := "", size := 0, loadTime := 0
      depth := d, contentHash := none } now hfresh
  have hpage : (st.sys.storage.createCrawledPage
      { sessionId := sessionId, url := url, statusCode := 0
        contentType := "", size := 0, loadTime := 0
        depth := d, contentHash := none } now).1 =
      { id := st.sys.storage.currentPageId, url := url
        sessionId := sessionId, statusCode := none, contentType := none
        size := none, loadTime := none, depth := d
        contentHash := none, discoveredAt := now } := rfl
  have hpg := pagesBySession_of_append st.sys.storage _ _ _ hcp.1 sessionId
  rw [hpage] at hpg
  rw [if_pos (by simp)] at hpg
  unfold crawlStep
  rw [hq]
  dsimp only [updateActiveCurrentUrl]
  rw [if_neg (by rw [hnv]; simp [hdp])]
  rw [hfetch]
  refine ⟨rfl, rfl, rfl, ?_⟩
  rw [pagesBySession_congr _ _ ((commitCounters_spec _ _).2.2.2.2.1) sessionId]
  exact hpg

/-- After a failure iteration (or any iteration), the while loop proceeds to
the next queued URL rather than terminating, as long as the loop guard
holds, no stop was requested and the cancellation flag is unset. -/
theorem crawlLoop_continues (w : World) (stops : Nat → Bool) (sessionId : Nat)
    (startUrl : String) (maxPages maxDepth now fuel i : Nat) (st : LoopState)
    (hstop : stops i = false)
    (hne : st.queue.isEmpty = false)
    (hlt : st.totalPages < maxPages)
    (hflag : ((mapGet st.sys.activeCrawls sessionId).map
      (·.shouldStop)).getD false = false) :
    crawlLoop w stops sessionId startUrl maxPages maxDepth now (fuel + 1) i st =
      crawlLoop w stops sessionId startUrl maxPages maxDepth now fuel (i + 1)
        (crawlStep w sessionId startUrl maxPages maxDepth now st) := by
  rw [crawlLoop]
  simp only [hstop, Bool.false_eq_true, if_false]
  rw [if_neg (by rw [hne, decide_eq_true hlt]; simp)]
  rw [if_neg (by rw [hflag]; simp)]

/-- C1 (amended): for a URL dequeued whose fetch fails at the transport
level, the controller records exactly one CrawledPage for that URL — with
stored statusCode null (the controller passes 0, which `createCrawledPage`'s
`statusCode || null` coercion stores as null) and contentHash null —
increments totalPages and errorPages each by one, and the crawl loop
continues with the next queued URL rather than terminating the session. -/
theorem C1_transport_failure_recording :
    (∀ (w : World) (sessionId : Nat) (startUrl : String)
        (maxPages maxDepth now : Nat) (st : LoopState) (url : String) (d : Nat)
        (rest : List (String × Nat)),
      st.queue = (url, d) :: rest →
      st.visited.contains url = false →
      ¬ maxDepth < d →
      w.fetch url = FetchOutcome.failure →
      (∀ kv ∈ st.sys.storage.crawledPages,
        kv.1 < st.sys.storage.currentPageId) →
      (crawlStep w sessionId startUrl maxPages maxDepth now st).totalPages =
          st.totalPages + 1 ∧
      (crawlStep w sessionId startUrl maxPages maxDepth now st).errorPages =
          st.errorPages + 1 ∧
      (crawlStep w sessionId startUrl maxPages maxDepth now st).successfulPages =
          st.successfulPages ∧
      (crawlStep w sessionId startUrl maxPages maxDepth now
          st).sys.storage.getCrawledPagesBySession sessionId =
        st.sys.storage.getCrawledPagesBySession sessionId ++
          [{ id := st.sys.storage.currentPageId, url := url
             sessionId := sessionId, statusCode := none, contentType := none
             size := none, loadTime := none, depth := d, contentHash := none
             discoveredAt := now }]) ∧
    (∀ (w : World) (stops : Nat → Bool) (sessionId : Nat) (startUrl : String)
        (maxPages maxDepth now fuel i : Nat) (st : LoopState),
      stops i = false →
      st.queue.isEmpty = false →
      st.totalPages < maxPages →
      ((mapGet st.sys.activeCrawls sessionId).map (·.shouldStop)).getD false =
        false →
      crawlLoop w stops sessionId startUrl maxPages maxDepth now (fuel + 1) i
          st =
        crawlLoop w stops sessionId startUrl maxPages maxDepth now fuel (i + 1)
          (crawlStep w sessionId startUrl maxPages maxDepth now st)) ∧
    (∀ (w : World) (stops : Nat → Bool) (fuel : Nat) (sys : SysState)
        (sessionId : Nat) (startUrl : String) (maxPages maxDepth now : Nat),
      (∀ s, mapGet sys.storage.crawlSessions sessionId = some s →
        s.totalPages = 0 ∧ s.successfulPages = 0 ∧ s.errorPages = 0) →
      sys.storage.getCrawledPagesBySession sessionId = [] →
      (∀ kv ∈ sys.storage.crawledPages, kv.1 < sys.storage.currentPageId) →
      (∀ u, ((startCrawling w stops fuel sys sessionId startUrl maxPages
          maxDepth now).1.storage.getCrawledPagesBySession sessionId).countP
          (fun p => p.url == u) ≤ 1) ∧
      (∀ p ∈ (startCrawling w stops fuel sys sessionId startUrl maxPages
          maxDepth now).1.storage.getCrawledPagesBySession sessionId,
        w.fetch p.url = FetchOutcome.failure →
          p.statusCode = none ∧ p.contentHash = none ∧ p.contentType = none)) := by
  refine ⟨?_, ?_, ?_⟩
  · intro w sessionId startUrl maxPages maxDepth now st url d rest hq hnv hdp
      hfetch hfresh
    exact crawlStep_failure_effects w sessionId startUrl maxPages maxDepth now
      st url d rest hq hnv hdp hfetch hfresh
  · intro w stops sessionId startUrl maxPages maxDepth now fuel i st hstop hne
      hlt hflag
    exact crawlLoop_continues w stops sessionId startUrl maxPages maxDepth now
      fuel i st hstop hne hlt hflag
  · intro w stops fuel sys sessionId startUrl maxPages maxDepth now h1 h2 h3
    have hpost := startCrawling_post w stops fuel sys sessionId startUrl
      maxPages maxDepth now h1 h2 h3
    exact ⟨fun u => countP_url_le_one _ hpost.nodupUrls u, hpost.pageFail⟩

/-- C1 counterexample: in the all-failures demo run the single recorded page
for the failed URL has stored statusCode null, not 0 as the claim states. -/
theorem C1_statusCode_counterexample :
    failWorld.fetch "https://a.com/" = FetchOutcome.failure ∧
    (failRunSys.storage.getCrawledPagesBySession 1).map (·.url) =
      ["https://a.com/"] ∧
    (failRunSys.storage.getCrawledPagesBySession 1).map (·.statusCode) =
      [none] ∧
    ¬ (∀ p ∈ failRunSys.storage.getCrawledPagesBySession 1,
        p.statusCode = some 0) := by
  decide

/-- The initial loop state of the demo crawl. -/
def demoLoopState : LoopState :=
  { sys := { storage := demoStorage, activeCrawls := [] }
    visited := [], queued := ["https://a.com/"]
    queue := [("https://a.com/", 0)]
    totalPages := 0, successfulPages := 0, errorPages := 0 }

theorem C1_transport_failure_recording_witness :
    ((crawlStep failWorld 1 "https://a.com/" 10 2 7 demoLoopState).totalPages =
        demoLoopState.totalPages + 1 ∧
     (crawlStep failWorld 1 "https://a.com/" 10 2 7 demoLoopState).errorPages =
        demoLoopState.errorPages + 1 ∧
     (crawlStep failWorld 1 "https://a.com/" 10 2 7
        demoLoopState).successfulPages = demoLoopState.successfulPages ∧
     (crawlStep failWorld 1 "https://a.com/" 10 2 7
        demoLoopState).sys.storage.getCrawledPagesBySession 1 =
       demoLoopState.sys.storage.getCrawledPagesBySession 1 ++
         [{ id := demoLoopState.sys.storage.currentPageId
            url := "https://a.com/", sessionId := 1, statusCode := none
            contentType := none, size := none, loadTime := none, depth := 0
            contentHash := none, discoveredAt := 7 }]) ∧
    (crawlLoop failWorld (fun _ => false) 1 "https://a.com/" 10 2 7 (4 + 1) 0
        demoLoopState =
      crawlLoop failWorld (fun _ => false) 1 "https://a.com/" 10 2 7 4 (0 + 1)
        (crawlStep failWorld 1 "https://a.com/" 10 2 7 demoLoopState)) ∧
    ((∀ u, (failRunSys.storage.getCrawledPagesBySession 1).countP
        (fun p => p.url == u) ≤ 1) ∧
     (∀ p ∈ failRunSys.storage.getCrawledPagesBySession 1,
       failWorld.fetch p.url = FetchOutcome.failure →
         p.statusCode = none ∧ p.contentHash = none ∧ p.contentType = none)) :=
  ⟨C1_transport_failure_recording.1 failWorld 1 "https://a.com/" 10 2 7
     demoLoopState "https://a.com/" 0 [] rfl (by decide) (by decide) rfl
     (by decide),
   C1_transport_failure_recording.2.1 failWorld (fun _ => false) 1
     "https://a.com/" 10 2 7 4 0 demoLoopState rfl rfl (by decide) rfl,
   C1_transport_failure_recording.2.2 failWorld (fun _ => false) 5
     { storage := demoStorage, activeCrawls := [] } 1 "https://a.com/" 10 2 7
     (by decide) (by decide) (by decide)⟩

/-! ## C8 — non-HTML content hashing -/

/-- The textual re-encoding of a non-HTML body that the code feeds into
SHA-256: the string itself for string bodies, the base64 text for `Buffer`
bodies, the `JSON.stringify` image otherwise. -/
def bodyContentText : BodyData → String
  | .str s => s
  | .buf b => base64Encode b
  | .other j => j

theorem responseContentHash_nonhtml (w : World) (status : Nat)
    (ctype : Option String) (data : Option BodyData)
    (h2xx : 200 ≤ status ∧ status < 300)
    (hnothtml : ctypeIncludes ctype "text/html" = false) :
    responseContentHash w status ctype data =
      (match data with
       | none => none
       | some bd =>
         if bodyContentText bd = "" then none
         else some (sha256HexOfString (bodyContentText bd))) := by
  unfold responseContentHash
  rw [decide_eq_true h2xx.1, decide_eq_true h2xx.2, hnothtml]
  cases data with
  | none => rfl
  | some bd =>
    cases bd with
    | str s =>
      by_cases hs : s = ""
      · subst hs
        simp [dataTruthy, bodyContentText]
      · simp [dataTruthy, bodyContentText, hs]
    | buf b =>
      by_cases hb : base64Encode b = ""
      · simp [dataTruthy, bodyContentText, hb]
      · simp [dataTruthy, bodyContentText, hb]
    | other j =>
      by_cases hj : j = ""
      · subst hj
        simp [dataTruthy, bodyContentText]
      · simp [dataTruthy, bodyContentText, hj]

/-- The page record written by a crawl-loop iteration whose fetch returned a
response: the stored contentHash is exactly `responseContentHash`. -/
theorem crawlStep_response_effects (w : World) (sessionId : Nat)
    (startUrl : String) (maxPages maxDepth now : Nat) (st : LoopState)
    (url : String) (d : Nat) (rest : List (String × Nat)) (status : Nat)
    (ctype : Option String) (data : Option BodyData) (lt : Nat)
    (hq : st.queue = (url, d) :: rest)
    (hnv : st.visited.contains url = false)
    (hdp : ¬ maxDepth < d)
    (hfetch : w.fetch url = FetchOutcome.response status ctype data lt)
    (hfresh : ∀ kv ∈ st.sys.storage.crawledPages,
      kv.1 < st.sys.storage.currentPageId) :
    (crawlStep w sessionId startUrl maxPages maxDepth now
        st).sys.storage.getCrawledPagesBySession sessionId =
      st.sys.storage.getCrawledPagesBySession sessionId ++
        [{ id := st.sys.storage.currentPageId, url := url
           sessionId := sessionId
           statusCode := jsOrNullNat (some status)
           contentType := jsOrNullStr (some (contentTypeField ctype))
           size := jsOrNullNat (some (sizeField w data))
           loadTime := jsOrNullNat (some lt)
           depth := d
           contentHash := responseContentHash w status ctype data
           discoveredAt := now }] := by
  have hcp := createCrawledPage_spec st.sys.storage
    { sessionId := sessionId, url := url, statusCode := status
      contentType := contentTypeField ctype, size := sizeField w data
      loadTime := lt, depth := d
      contentHash := responseContentHash w status ctype data } now hfresh
  have hpage : (st.sys.storage.createCrawledPage
      { sessionId := sessionId, url := url, statusCode := status
        contentType := contentTypeField ctype, size := sizeField w data
        loadTime := lt, depth := d
        contentHash := responseContentHash w status ctype data } now).1 =
      { id := st.sys.storage.currentPageId, url := url
        sessionId := sessionId
        statusCode := jsOrNullNat (some status)
        contentType := jsOrNullStr (some (contentTypeField ctype))
        size := jsOrNullNat (some (sizeField w data))
        loadTime := jsOrNullNat (some lt)
        depth := d
        contentHash := responseContentHash w status ctype data
        discoveredAt := now } := rfl
  have hpg := pagesBySession_of_append st.sys.storage _ _ _ hcp.1 sessionId
  rw [hpage] at hpg
  rw [if_pos (by simp)] at hpg
  unfold crawlStep
  rw [hq]
  dsimp only [updateActiveCurrentUrl]
  rw [if_neg (by rw [hnv]; simp [hdp])]
  rw [hfetch]
  dsimp only
  by_cases h2xx : (decide (200 ≤ status) && decide (status < 300)) = true
  · rw [if_pos h2xx]
    by_cases hhtml : (decide (d < maxDepth) && ctypeIncludes ctype "text/html") = true
    · rw [if_pos hhtml]
      rw [pagesBySession_congr _ _ ((commitCounters_spec _ _).2.2.2.2.1) sessionId]
      rw [(enqueueLinks_spec _ _ _ _).1]
      rw [pagesBySession_congr _ _ ((addPdfLinks_storage _ _ _).2.1) sessionId]
      exact hpg
    · rw [if_neg hhtml]
      rw [pagesBySession_congr _ _ ((commitCounters_spec _ _).2.2.2.2.1) sessionId]
      exact hpg
  · rw [if_neg h2xx]
    rw [pagesBySession_congr _ _ ((commitCounters_spec _ _).2.2.2.2.1) sessionId]
    exact hpg

/-- C8 (amended): for a 2xx response with a non-HTML content type the
recorded contentHash is the hex SHA-256 of the UTF-8 bytes of a binary-safe
*textual re-encoding* of the body — the string itself for string bodies, the
base64 text for Buffer bodies, the JSON serialization otherwise — not of the
raw body bytes themselves; an empty body (empty string, empty Buffer, empty
text) yields a null hash. -/
theorem C8_nonhtml_hash :
    (∀ (w : World) (status : Nat) (ctype : Option String)
        (data : Option BodyData),
      200 ≤ status ∧ status < 300 →
      ctypeIncludes ctype "text/html" = false →
      responseContentHash w status ctype data =
        (match data with
         | none => none
         | some bd =>
           if bodyContentText bd = "" then none
           else some (sha256HexOfString (bodyContentText bd)))) ∧
    (∀ (w : World) (sessionId : Nat) (startUrl : String)
        (maxPages maxDepth now : Nat) (st : LoopState)
        (url : String) (d : Nat) (rest : List (String × Nat)) (status : Nat)
        (ctype : Option String) (data : Option BodyData) (lt : Nat),
      st.queue = (url, d) :: rest →
      st.visited.contains url = false →
      ¬ maxDepth < d →
      w.fetch url = FetchOutcome.response status ctype data lt →
      (∀ kv ∈ st.sys.storage.crawledPages,
        kv.1 < st.sys.storage.currentPageId) →
      ((crawlStep w sessionId startUrl maxPages maxDepth now
          st).sys.storage.getCrawledPagesBySession sessionId).map
          (·.contentHash) =
        (st.sys.storage.getCrawledPagesBySession sessionId).map
          (·.contentHash) ++ [responseContentHash w status ctype data]) := by
  constructor
  · intro w status ctype data h2xx hnothtml
    exact responseContentHash_nonhtml w status ctype data h2xx hnothtml
  · intro w sessionId startUrl maxPages maxDepth now st url d rest status ctype
      data lt hq hnv hdp hfetch hfresh
    rw [crawlStep_response_effects w sessionId startUrl maxPages maxDepth now
      st url d rest status ctype data lt hq hnv hdp hfetch hfresh]
    rw [List.map_append]
    rfl

/-- A world whose only successful fetch returns a one-byte Buffer body with a
non-HTML content type. -/
def bufWorld : World :=
  { failWorld with fetch := fun u =>
      if u == "https://a.com/" then
        (FetchOutcome.response 200 (some "application/octet-stream")
          (some (.buf [0])) 5)
      else FetchOutcome.failure }

/-- The system state after crawling the Buffer-body demo site. -/
def bufRunSys : SysState :=
  (startCrawling bufWorld (fun _ => false) 5
    { storage := demoStorage, activeCrawls := [] } 1 "https://a.com/" 10 2 7).1

/-- C8 counterexample: the single-byte Buffer body `[0x00]` is recorded with
contentHash = SHA-256 of the UTF-8 bytes of its base64 text `"AA=="`, which
differs from the SHA-256 of the raw byte sequence `[0x00]` that the claim
asserts. -/
theorem C8_raw_bytes_counterexample :
    bufWorld.fetch "https://a.com/" =
      FetchOutcome.response 200 (some "application/octet-stream")
        (some (.buf [0])) 5 ∧
    (bufRunSys.storage.getCrawledPagesBySession 1).map (·.contentHash) =
      [some (sha256HexOfString (base64Encode [0]))] ∧
    sha256HexOfString (base64Encode [0]) ≠ sha256Hex [0] := by
  decide

theorem C8_nonhtml_hash_witness :
    (responseContentHash bufWorld 200 (some "application/octet-stream")
        (some (.buf [0])) =
      (if bodyContentText (.buf [0]) = "" then none
       else some (sha256HexOfString (bodyContentText (.buf [0]))))) ∧
    ((crawlStep bufWorld 1 "https://a.com/" 10 2 7
        demoLoopState).sys.storage.getCrawledPagesBySession 1).map
        (·.contentHash) =
      (demoLoopState.sys.storage.getCrawledPagesBySession 1).map
        (·.contentHash) ++
        [responseContentHash bufWorld 200 (some "application/octet-stream")
          (some (.buf [0]))] :=
  ⟨C8_nonhtml_hash.1 bufWorld 200 (some "application/octet-stream")
     (some (.buf [0])) (by decide) (by decide),
   C8_nonhtml_hash.2 bufWorld 1 "https://a.com/" 10 2 7 demoLoopState
     "https://a.com/" 0 [] 200 (some "application/octet-stream")
     (some (.buf [0])) 5 rfl (by decide) (by decide) rfl (by decide)⟩


/-! ## C3 — hostname scope of recorded pages -/

/-- The scope property of a URL recorded during a crawl seeded at `startUrl`
(whose parse is `base`): the URL was seeded from the sitemap (those bypass the
hostname filter of `extractLinksAndPdfs`), or its www-stripped hostname — read
through the WHATWG parser — equals the seed's www-stripped hostname. -/
def UrlInScope (w : World) (startUrl : String) (base : JsUrl) (u : String) : Prop :=
  u ∈ getSitemapUrls w startUrl ∨
    (w.parse u).map (fun x => stripWww x.hostname) = some (stripWww base.hostname)

theorem processHref_links (w : World) (base : JsUrl) (baseUrl : String)
    (acc : List String × List String) (href : String) (x : String)
    (hx : x ∈ (processHref w base baseUrl acc href).1) :
    x ∈ acc.1 ∨ ∃ u, w.resolve href.trim baseUrl = some u ∧
      x = u.serializeNoHash ∧
      stripWww u.hostname = stripWww base.hostname := by
  unfold processHref at hx
  split at hx
  · exact Or.inl hx
  split at hx
  · exact Or.inl hx
  split at hx
  · exact Or.inl hx
  rename_i url hres
  dsimp only at hx
  by_cases h1 : (!(stripWww url.hostname == stripWww base.hostname)) = true
  · rw [if_pos h1] at hx
    exact Or.inl hx
  · rw [if_neg h1] at hx
    have hhost : stripWww url.hostname = stripWww base.hostname := by
      simpa using h1
    by_cases h2 : ((url.origin ++ url.pathname ++ url.search ==
        base.origin ++ base.pathname ++ base.search) && !(url.hash == "")) = true
    · rw [if_pos h2] at hx
      exact Or.inl hx
    · rw [if_neg h2] at hx
      by_cases h3 : (!(url.hash == "") && (url.pathname == "" ||
          url.pathname == "/" || url.pathname == base.pathname)) = true
      · rw [if_pos h3] at hx
        exact Or.inl hx
      · rw [if_neg h3] at hx
        by_cases h4 : url.pathname.toLower.endsWith ".pdf" = true
        · rw [if_pos h4] at hx
          exact Or.inl hx
        · rw [if_neg h4] at hx
          by_cases h5 : (skipExtensions.any
              (fun ext => url.pathname.toLower.endsWith ext)) = true
          · rw [if_pos h5] at hx
            exact Or.inl hx
          · rw [if_neg h5] at hx
            rcases mem_jsSetInsert.mp hx with h | h
            · exact Or.inl h
            · exact Or.inr ⟨url, hres, h, hhost⟩

theorem foldl_processHref_links (w : World) (base : JsUrl) (baseUrl : String) :
    ∀ (hrefs : List String) (acc : List String × List String) (x : String),
      x ∈ (hrefs.foldl (processHref w base baseUrl) acc).1 →
      x ∈ acc.1 ∨ ∃ u href, w.resolve href baseUrl = some u ∧
        x = u.serializeNoHash ∧
        stripWww u.hostname = stripWww base.hostname := by
  intro hrefs
  induction hrefs with
  | nil => exact fun acc x hx => Or.inl hx
  | cons hd tl ih =>
    intro acc x hx
    rw [List.foldl_cons] at hx
    rcases ih _ x hx with h | h
    · rcases processHref_links w base baseUrl acc hd x h with h2 | h2
      · exact Or.inl h2
      · obtain ⟨u, hu1, hu2, hu3⟩ := h2
        exact Or.inr ⟨u, hd.trim, hu1, hu2, hu3⟩
    · exact Or.inr h

theorem extractLinks_sameHost (w : World) (html : Option BodyData)
    (baseUrl : String) (base : JsUrl) (hparse : w.parse baseUrl = some base)
    (x : String) (hx : x ∈ (extractLinksAndPdfs w html baseUrl).1) :
    ∃ u href, w.resolve href baseUrl = some u ∧ x = u.serializeNoHash ∧
      stripWww u.hostname = stripWww base.hostname := by
  unfold extractLinksAndPdfs at hx
  rw [hparse] at hx
  rcases foldl_processHref_links w base baseUrl (w.hrefs html) ([], []) x hx with
    h | h
  · exact absurd h (by simp)
  · exact h

theorem enqueueLinks_queue_mem (maxPages depth : Nat) (links : List String) :
    ∀ (st : LoopState) (q : String × Nat),
      q ∈ (enqueueLinks maxPages depth links st).queue →
      q ∈ st.queue ∨ q.1 ∈ links := by
  unfold enqueueLinks
  induction links with
  | nil => exact fun st q h => Or.inl h
  | cons hd tl ih =>
    intro st q hq
    rw [List.foldl_cons] at hq
    by_cases hc : (!(st.visited.contains hd) && !(st.queued.contains hd) &&
        decide (st.queue.length + st.totalPages < maxPages)) = true
    · rw [if_pos hc] at hq
      rcases ih _ q hq with h | h
      · rcases List.mem_append.mp h with h2 | h2
        · exact Or.inl h2
        · rw [List.mem_singleton] at h2
          rw [h2]
          exact Or.inr (List.mem_cons_self hd tl)
      · exact Or.inr (List.mem_cons_of_mem hd h)
    · rw [if_neg hc] at hq
      rcases ih _ q hq with h | h
      · exact Or.inl h
      · exact Or.inr (List.mem_cons_of_mem hd h)

theorem seedSitemapUrls_queue_mem (maxPages : Nat) (urls : List String) :
    ∀ (st : LoopState) (q : String × Nat),
      q ∈ (seedSitemapUrls maxPages urls st).queue →
      q ∈ st.queue ∨ q.1 ∈ urls := by
  unfold seedSitemapUrls
  induction urls with
  | nil => exact fun st q h => Or.inl h
  | cons hd tl ih =>
    intro st q hq
    rw [List.foldl_cons] at hq
    by_cases hc : (!(st.visited.contains hd) && !(st.queued.contains hd) &&
        decide (st.queue.length < maxPages)) = true
    · rw [if_pos hc] at hq
      rcases ih _ q hq with h | h
      · rcases List.mem_append.mp h with h2 | h2
        · exact Or.inl h2
        · rw [List.mem_singleton] at h2
          rw [h2]
          exact Or.inr (List.mem_cons_self hd tl)
      · exact Or.inr (List.mem_cons_of_mem hd h)
    · rw [if_neg hc] at hq
      rcases ih _ q hq with h | h
      · exact Or.inl h
      · exact Or.inr (List.mem_cons_of_mem hd h)

/-- The scope invariant of the crawl loop: every visited URL, every queued
URL and every recorded page URL of the session is in scope. -/
structure ScopeInv (w : World) (sessionId : Nat) (startUrl : String)
    (base : JsUrl) (st : LoopState) : Prop where
  visitedOk : ∀ u ∈ st.visited, UrlInScope w startUrl base u
  queueOk : ∀ q ∈ st.queue, UrlInScope w startUrl base q.1
  pagesOk : ∀ p ∈ st.sys.storage.getCrawledPagesBySession sessionId,
    UrlInScope w startUrl base p.url

theorem urlInScope_of_link (w : World) (startUrl : String) (base : JsUrl)
    (hcoh : ∀ href baseStr u, w.resolve href baseStr = some u →
      (w.parse u.serializeNoHash).map (·.hostname) = some u.hostname)
    (x : String) (u : JsUrl) (href : String)
    (hres : w.resolve href startUrl = some u)
    (hser : x = u.serializeNoHash)
    (hhost : stripWww u.hostname = stripWww base.hostname) :
    UrlInScope w startUrl base x := by
  refine Or.inr ?_
  have hp := hcoh href startUrl u hres
  subst hser
  cases hpx : w.parse u.serializeNoHash with
  | none =>
    rw [hpx] at hp
    exact absurd hp (by simp)
  | some y =>
    rw [hpx] at hp
    have hy : y.hostname = u.hostname := by simpa using hp
    simp [hy, hhost]

theorem commitCounters_scope {w : World} {sessionId : Nat} {startUrl : String}
    {base : JsUrl} {st : LoopState} (h : ScopeInv w sessionId startUrl base st) :
    ScopeInv w sessionId startUrl base (commitCounters sessionId st) := by
  have hpg := pagesBySession_congr st.sys.storage
    (commitCounters sessionId st).sys.storage
    (commitCounters_spec sessionId st).2.2.2.2.1 sessionId
  refine ⟨?_, ?_, ?_⟩
  · intro u hu
    rw [(commitCounters_spec sessionId st).2.2.2.1] at hu
    exact h.visitedOk u hu
  · intro q hq
    exact h.queueOk q hq
  · intro p hp
    rw [hpg] at hp
    exact h.pagesOk p hp

theorem stopRoute_scope {w : World} {sessionId : Nat} {startUrl : String}
    {base : JsUrl} {st : LoopState} (now : Nat)
    (h : ScopeInv w sessionId startUrl base st) :
    ScopeInv w sessionId startUrl base
      { st with sys := stopRoute st.sys sessionId now } := by
  have hsp : (stopRoute st.sys sessionId now).storage.crawledPages =
      st.sys.storage.crawledPages :=
    (updateCrawlSession_pages st.sys.storage sessionId _).1
  have hpg := pagesBySession_congr st.sys.storage _ hsp sessionId
  refine ⟨h.visitedOk, h.queueOk, ?_⟩
  intro p hp
  rw [show ({ st with sys := stopRoute st.sys sessionId now } :
      LoopState).sys.storage = (stopRoute st.sys sessionId now).storage from rfl,
    hpg] at hp
  exact h.pagesOk p hp

theorem crawlStep_scope (w : World) (sessionId : Nat) (startUrl : String)
    (maxPages maxDepth now : Nat) (st : LoopState) (base : JsUrl)
    (hparse : w.parse startUrl = some base)
    (hcoh : ∀ href baseStr u, w.resolve href baseStr = some u →
      (w.parse u.serializeNoHash).map (·.hostname) = some u.hostname)
    (hfresh : ∀ kv ∈ st.sys.storage.crawledPages,
      kv.1 < st.sys.storage.currentPageId)
    (hinv : ScopeInv w sessionId startUrl base st) :
    ScopeInv w sessionId startUrl base
      (crawlStep w sessionId startUrl maxPages maxDepth now st) := by
  unfold crawlStep
  cases hq : st.queue with
  | nil => exact ⟨hinv.visitedOk, hinv.queueOk, hinv.pagesOk⟩
  | cons current rest =>
    have hrest : ∀ q ∈ rest, UrlInScope w startUrl base q.1 := by
      intro q hq2
      exact hinv.queueOk q (by rw [hq]; exact List.mem_cons_of_mem current hq2)
    have hcur : UrlInScope w startUrl base current.1 :=
      hinv.queueOk current (by rw [hq]; exact List.mem_cons_self current rest)
    have hvis : ∀ u ∈ st.visited ++ [current.1], UrlInScope w startUrl base u := by
      intro u hu
      rcases List.mem_append.mp hu with h | h
      · exact hinv.visitedOk u h
      · rw [List.mem_singleton] at h
        rw [h]
        exact hcur
    dsimp only [updateActiveCurrentUrl]
    by_cases hskip : (st.visited.contains current.1 ||
        decide (maxDepth < current.2)) = true
    · rw [if_pos hskip]
      exact ⟨hinv.visitedOk, hrest, hinv.pagesOk⟩
    · rw [if_neg hskip]
      cases hfetch : w.fetch current.1 with
      | failure =>
        dsimp only [updateActiveCurrentUrl]
        apply commitCounters_scope
        have hcp := createCrawledPage_spec st.sys.storage
          { sessionId := sessionId, url := current.1, statusCode := 0
            contentType := "", size := 0, loadTime := 0
            depth := current.2, contentHash := none } now hfresh
        have hpage : (st.sys.storage.createCrawledPage
            { sessionId := sessionId, url := current.1, statusCode := 0
              contentType := "", size := 0, loadTime := 0
              depth := current.2, contentHash := none } now).1 =
            { id := st.sys.storage.currentPageId, url := current.1
              sessionId := sessionId, statusCode := none, contentType := none
              size := none, loadTime := none, depth := current.2
              contentHash := none, discoveredAt := now } := rfl
        have hpg := pagesBySession_of_append st.sys.storage _ _ _ hcp.1 sessionId
        rw [hpage] at hpg
        rw [if_pos (by simp)] at hpg
        refine ⟨?_, ?_, ?_⟩
        · exact hvis
        · exact hrest
        · intro p hp
          rw [hpg] at hp
          rcases List.mem_append.mp hp with h | h
          · exact hinv.pagesOk p h
          · rw [List.mem_singleton] at h
            rw [h]
            exact hcur
      | response status ctype data loadTime =>
        dsimp only [updateActiveCurrentUrl]
        apply commitCounters_scope
        have hcp := createCrawledPage_spec st.sys.storage
          { sessionId := sessionId, url := current.1, statusCode := status
            contentType := contentTypeField ctype, size := sizeField w data
            loadTime := loadTime, depth := current.2
            contentHash := responseContentHash w status ctype data } now hfresh
        have hpage : (st.sys.storage.createCrawledPage
            { sessionId := sessionId, url := current.1, statusCode := status
              contentType := contentTypeField ctype, size := sizeField w data
              loadTime := loadTime, depth := current.2
              contentHash := responseContentHash w status ctype data } now).1 =
            { id := st.sys.storage.currentPageId, url := current.1
              sessionId := sessionId
              statusCode := jsOrNullNat (some status)
              contentType := jsOrNullStr (some (contentTypeField ctype))
              size := jsOrNullNat (some (sizeField w data))
              loadTime := jsOrNullNat (some loadTime)
              depth := current.2
              contentHash := responseContentHash w status ctype data
              discoveredAt := now } := rfl
        have hpg := pagesBySession_of_append st.sys.storage _ _ _ hcp.1 sessionId
        rw [hpage] at hpg
        rw [if_pos (by simp)] at hpg
        have hpagesX : ∀ p ∈ st.sys.storage.getCrawledPagesBySession sessionId ++
            [({ id := st.sys.storage.currentPageId, url := current.1
                sessionId := sessionId
                statusCode := jsOrNullNat (some status)
                contentType := jsOrNullStr (some (contentTypeField ctype))
                size := jsOrNullNat (some (sizeField w data))
                loadTime := jsOrNullNat (some loadTime)
                depth := current.2
                contentHash := responseContentHash w status ctype data
                discoveredAt := now } : CrawledPage)],
            UrlInScope w startUrl base p.url := by
          intro p hp
          rcases List.mem_append.mp hp with h | h
          · exact hinv.pagesOk p h
          · rw [List.mem_singleton] at h
            rw [h]
            exact hcur
        by_cases h2xx : (decide (200 ≤ status) && decide (status < 300)) = true
        · rw [if_pos h2xx]
          by_cases hhtml : (decide (current.2 < maxDepth) &&
              ctypeIncludes ctype "text/html") = true
          · rw [if_pos hhtml]
            refine ⟨?_, ?_, ?_⟩
            · rw [(enqueueLinks_spec _ _ _ _).2.1]
              exact hvis
            · intro q hq2
              rcases enqueueLinks_queue_mem _ _ _ _ q hq2 with h | h
              · exact hrest q h
              · obtain ⟨u, href, hres, hser, hhost⟩ :=
                  extractLinks_sameHost w data startUrl base hparse q.1 h
                exact urlInScope_of_link w startUrl base hcoh q.1 u href hres
                  hser hhost
            · intro p hp
              rw [(enqueueLinks_spec _ _ _ _).1] at hp
              rw [pagesBySession_congr _ _ ((addPdfLinks_storage _ _ _).2.1)
                sessionId] at hp
              rw [hpg] at hp
              exact hpagesX p hp
          · rw [if_neg hhtml]
            refine ⟨?_, ?_, ?_⟩
            · exact hvis
            · exact hrest
            · intro p hp
              rw [hpg] at hp
              exact hpagesX p hp
        · rw [if_neg h2xx]
          refine ⟨?_, ?_, ?_⟩
          · exact hvis
          · exact hrest
          · intro p hp
            rw [hpg] at hp
            exact hpagesX p hp

theorem crawlLoop_scope (w : World) (stops : Nat → Bool) (sessionId : Nat)
    (startUrl : String) (maxPages maxDepth now : Nat) (base : JsUrl)
    (hparse : w.parse startUrl = some base)
    (hcoh : ∀ href baseStr u, w.resolve href baseStr = some u →
      (w.parse u.serializeNoHash).map (·.hostname) = some u.hostname) :
    ∀ (fuel i : Nat) (st : LoopState), LoopInv w sessionId maxPages st →
      ScopeInv w sessionId startUrl base st →
      ScopeInv w sessionId startUrl base
        (crawlLoop w stops sessionId startUrl maxPages maxDepth now fuel i st).1 := by
  intro fuel
  induction fuel with
  | zero => exact fun i st _ h => h
  | succ fuel ih =>
    intro i st hl hs
    have hbaseL : LoopInv w sessionId maxPages
        (if stops i then { st with sys := stopRoute st.sys sessionId now } else st) := by
      by_cases hstop : stops i
      · rw [if_pos hstop]
        exact stopRoute_loopInv now hl
      · rw [if_neg hstop]
        exact hl
    have hbaseS : ScopeInv w sessionId startUrl base
        (if stops i then { st with sys := stopRoute st.sys sessionId now } else st) := by
      by_cases hstop : stops i
      · rw [if_pos hstop]
        exact stopRoute_scope now hs
      · rw [if_neg hstop]
        exact hs
    rw [crawlLoop]
    set st2 := if stops i then { st with sys := stopRoute st.sys sessionId now } else st
      with hst2
    by_cases hguard : (st2.queue.isEmpty || !(decide (st2.totalPages < maxPages))) = true
    · rw [if_pos hguard]
      exact hbaseS
    · rw [if_neg hguard]
      by_cases hflag :
          ((mapGet st2.sys.activeCrawls sessionId).map (·.shouldStop)).getD false = true
      · rw [if_pos hflag]
        exact hbaseS
      · rw [if_neg hflag]
        refine ih (i + 1) _ ?_ ?_
        · apply crawlStep_inv
          · have h2 := hguard
            simp only [Bool.or_eq_true, not_or, Bool.not_eq_true, Bool.not_eq_false',
              decide_eq_true_eq] at h2
            exact h2.2
          · exact hbaseL
        · exact crawlStep_scope w sessionId startUrl maxPages maxDepth now st2 base
            hparse hcoh hbaseL.fresh hbaseS

theorem seedSitemapUrls_scope {w : World} {sessionId maxPages : Nat}
    {startUrl : String} {base : JsUrl} (st : LoopState)
    (h : ScopeInv w sessionId startUrl base st) :
    ScopeInv w sessionId startUrl base
      (seedSitemapUrls maxPages (getSitemapUrls w startUrl) st) := by
  have hsp := seedSitemapUrls_spec maxPages (getSitemapUrls w startUrl) st
  refine ⟨?_, ?_, ?_⟩
  · intro u hu
    rw [hsp.2.1] at hu
    exact h.visitedOk u hu
  · intro q hq
    rcases seedSitemapUrls_queue_mem _ _ _ q hq with h2 | h2
    · exact h.queueOk q h2
    · exact Or.inl h2
  · intro p hp
    rw [hsp.1] at hp
    exact h.pagesOk p hp

theorem crawlFinish_scope (w : World) (sessionId : Nat) (startUrl : String)
    (base : JsUrl) (now : Nat) (res : LoopState × Bool)
    (h : ScopeInv w sessionId startUrl base res.1) :
    ∀ p ∈ ((if res.2 then
         (({ storage := (res.1.sys.storage.updateCrawlSession sessionId
              { status := some
                  (if ((mapGet res.1.sys.activeCrawls sessionId).map
                      (·.shouldStop)).getD false then SessionStatus.stopped
                   else SessionStatus.completed)
                completedAt := some (some now)
                totalPages := some res.1.totalPages
                successfulPages := some res.1.successfulPages
                errorPages := some res.1.errorPages }).2
             activeCrawls := mapDelete res.1.sys.activeCrawls sessionId } : SysState),
          true)
        else (res.1.sys, false)).1).storage.getCrawledPagesBySession sessionId,
      UrlInScope w startUrl base p.url := by
  by_cases hdone : res.2 = true
  · rw [if_pos hdone]
    intro p hp
    have hpgeq := pagesBySession_congr res.1.sys.storage
      (res.1.sys.storage.updateCrawlSession sessionId
        { status := some
            (if ((mapGet res.1.sys.activeCrawls sessionId).map
                (·.shouldStop)).getD false then SessionStatus.stopped
             else SessionStatus.completed)
          completedAt := some (some now)
          totalPages := some res.1.totalPages
          successfulPages := some res.1.successfulPages
          errorPages := some res.1.errorPages }).2
      (updateCrawlSession_pages res.1.sys.storage sessionId _).1 sessionId
    have hp2 : p ∈ (res.1.sys.storage.updateCrawlSession sessionId
        { status := some
            (if ((mapGet res.1.sys.activeCrawls sessionId).map
                (·.shouldStop)).getD false then SessionStatus.stopped
             else SessionStatus.completed)
          completedAt := some (some now)
          totalPages := some res.1.totalPages
          successfulPages := some res.1.successfulPages
          errorPages := some res.1.errorPages }).2.getCrawledPagesBySession
        sessionId := hp
    rw [hpgeq] at hp2
    exact h.pagesOk p hp2
  · rw [if_neg hdone]
    exact h.pagesOk

/-- C3: amended scope filter. The original claim — every CrawledPage of a
session has a www-stripped hostname equal to the seed's, also for
sitemap-seeded URLs — is false: sitemap URLs are enqueued with no hostname
check. Amended: every recorded page URL either comes from the sitemap or has
a www-stripped hostname (through the URL parser) equal to the seed's. The
`hcoh` hypothesis states WHATWG-URL coherence of the oracle: re-parsing the
fragment-free serialization of a resolved URL preserves its hostname. -/
theorem C3_scope_filter (w : World) (stops : Nat → Bool) (fuel : Nat)
    (sys : SysState) (sessionId : Nat) (startUrl : String)
    (maxPages maxDepth now : Nat) (base : JsUrl)
    (hparse : w.parse startUrl = some base)
    (hcoh : ∀ href baseStr u, w.resolve href baseStr = some u →
      (w.parse u.serializeNoHash).map (·.hostname) = some u.hostname)
    (hstored : ∀ s, mapGet sys.storage.crawlSessions sessionId = some s →
      s.totalPages = 0 ∧ s.successfulPages = 0 ∧ s.errorPages = 0)
    (hpages : sys.storage.getCrawledPagesBySession sessionId = [])
    (hfresh : ∀ kv ∈ sys.storage.crawledPages, kv.1 < sys.storage.currentPageId) :
    ∀ p ∈ (startCrawling w stops fuel sys sessionId startUrl maxPages maxDepth
        now).1.storage.getCrawledPagesBySession sessionId,
      p.url ∈ getSitemapUrls w startUrl ∨
        (w.parse p.url).map (fun x => stripWww x.hostname) =
          some (stripWww base.hostname) := by
  unfold startCrawling
  cases hlk : mapGet sys.storage.crawlSessions sessionId with
  | none =>
    simp only [MemStorage.updateCrawlSession, hlk]
    intro p hp
    rw [show ({ sys with storage := sys.storage } : SysState).storage =
      sys.storage from rfl, hpages] at hp
    exact absurd hp (by simp)
  | some s0 =>
    simp only [MemStorage.updateCrawlSession, hlk]
    refine crawlFinish_scope w sessionId startUrl base now _
      (crawlLoop_scope w stops sessionId startUrl maxPages maxDepth now base
        hparse hcoh fuel 0 _ ?_ ?_)
    · refine seedSitemapUrls_inv _ _ (loopInv_init w sessionId maxPages _ ?_ ?_ ?_
        ⟨rfl, rfl, rfl⟩)
      · intro s hx
        rw [show ∀ x : CrawlSession,
            mapGet (mapSet sys.storage.crawlSessions sessionId x) sessionId = some x
            from fun x => mapGet_mapSet _ _ _] at hx
        rw [Option.some.injEq] at hx
        subst hx
        obtain ⟨c1, c2, c3⟩ := hstored s0 hlk
        exact ⟨c1, c2, c3, Or.inl rfl⟩
      · exact hpages
      · exact hfresh
    · refine seedSitemapUrls_scope _ ⟨?_, ?_, ?_⟩
      · intro u hu
        exact absurd hu (by simp)
      · intro q hq
        have hq2 : q ∈ [(startUrl, 0)] := hq
        rw [List.mem_singleton] at hq2
        refine Or.inr ?_
        rw [hq2]
        show (w.parse startUrl).map (fun x => stripWww x.hostname) =
          some (stripWww base.hostname)
        simp [hparse]
      · intro p hp
        have hp2 : p ∈ sys.storage.getCrawledPagesBySession sessionId := hp
        rw [hpages] at hp2
        exact absurd hp2 (by simp)

/-- A `JsUrl` for `https://evil.com/x`. -/
def evilUrl : JsUrl :=
  { origin := "https://evil.com", hostname := "evil.com", pathname := "/x"
    search := "", hash := "" }

/-- `failWorld` with a sitemap that lists an off-host URL, and a parser that
also understands that URL. -/
def sitemapWorld : World :=
  { failWorld with
    sitemapLocs := fun _ => some ["https://evil.com/x"]
    parse := fun s =>
      if s == "https://a.com/" then some aComUrl
      else if s == "https://evil.com/x" then some evilUrl
      else none }

/-- The crawl of session 1 under `sitemapWorld`, run to completion. -/
def sitemapRunSys : SysState :=
  (startCrawling sitemapWorld (fun _ => false) 9
    { storage := demoStorage, activeCrawls := [] } 1 "https://a.com/" 10 2 7).1

/-- C3 counterexample: crawling `https://a.com/` with a sitemap that lists
`https://evil.com/x` records a CrawledPage whose URL's www-stripped hostname
is `evil.com`, not the seed's `a.com` — sitemap URLs are enqueued with no
hostname check. -/
theorem C3_scope_counterexample :
    ((sitemapRunSys.storage.getCrawledPagesBySession 1).map (fun p => p.url)) =
      ["https://a.com/", "https://evil.com/x"] ∧
    "https://evil.com/x" ∈ getSitemapUrls sitemapWorld "https://a.com/" ∧
    ((sitemapWorld.parse "https://evil.com/x").map
      (fun x => stripWww x.hostname)) = some "evil.com" ∧
    ((sitemapWorld.parse "https://a.com/").map
      (fun x => stripWww x.hostname)) = some "a.com" ∧
    "evil.com" ≠ "a.com" := by
  refine ⟨by decide, by decide, by decide, by decide, by decide⟩

theorem C3_scope_filter_witness :
    failWorld.parse "https://a.com/" = some aComUrl ∧
    ∀ p ∈ failRunSys.storage.getCrawledPagesBySession 1,
      p.url ∈ getSitemapUrls failWorld "https://a.com/" ∨
        (failWorld.parse p.url).map (fun x => stripWww x.hostname) =
          some (stripWww aComUrl.hostname) := by
  refine ⟨by decide, ?_⟩
  have h := C3_scope_filter failWorld (fun _ => false) 5
    { storage := demoStorage, activeCrawls := [] } 1 "https://a.com/" 10 2 7
    aComUrl (by decide)
    (fun href baseStr u hres => absurd hres (by simp [failWorld]))
    (by decide) (by decide) (by decide)
  exact h


end WebsiteMapper
